import Mathlib

/-!
Ghostwriter: the statistics wiring of `MainWindow` and the statistics engine.

Part I embeds the signal/slot wiring that `MainWindow::MainWindow` and
`MainWindow::buildSidebar` (src/src/MainWindow.cpp) establish with Qt's
string-based `connect(sender, SIGNAL(..), receiver, SLOT(..))`, together with
the slots `SessionStatisticsWidget` declares (src/src/sessionstatisticswidget.h).

Part II models the text-metrics analyzer, Part III the session tracker.  Part IV
embeds the full-screen, menu-bar and time-label handling of `MainWindow`, Part V its
splitter sizes, recent-files menu, close handling and sidebar tab selection.
-/

namespace Ghostwriter

/-! ## Part I. Signal/slot wiring -/

/-- The objects that take part in the `connect` statements of the
`MainWindow` constructor body and of `buildSidebar`.  `mainWindow` is `this`. -/
inductive QObj where
  | editor
  | documentManager
  | appSettings
  | documentStats
  | documentStatsWidget
  | sessionStats
  | sessionStatsWidget
  | outlineWidget
  | htmlPreview
  | mainWindow
  deriving DecidableEq, Repr

/-- A normalized member signature as written inside `SIGNAL(..)` or `SLOT(..)`:
the member name and the list of parameter types. -/
structure Sig where
  name : String
  params : List String
  deriving DecidableEq, Repr

/-- One `connect(sender, SIGNAL(signal), receiver, SLOT(slot))` statement. -/
structure Connection where
  sender : QObj
  signal : Sig
  receiver : QObj
  slot : Sig
  deriving DecidableEq, Repr

/-- Argument values carried by an emission. -/
inductive QVal where
  | int (n : Int)
  | ulong (n : Nat)
  | str (s : String)
  | bool (b : Bool)
  deriving DecidableEq, Repr

/-- A slot invocation produced by delivering an emission. -/
structure SlotCall where
  receiver : QObj
  slot : Sig
  args : List QVal
  deriving DecidableEq, Repr

/-- The `connect` statements of `MainWindow::buildSidebar`
(MainWindow.cpp lines 1478-1498), in source order. -/
def buildSidebarConnections : List Connection :=
  [ ⟨.documentStats, ⟨"wordCountChanged", ["int"]⟩, .documentStatsWidget, ⟨"setWordCount", ["int"]⟩⟩,
    ⟨.documentStats, ⟨"characterCountChanged", ["int"]⟩, .documentStatsWidget, ⟨"setCharacterCount", ["int"]⟩⟩,
    ⟨.documentStats, ⟨"sentenceCountChanged", ["int"]⟩, .documentStatsWidget, ⟨"setSentenceCount", ["int"]⟩⟩,
    ⟨.documentStats, ⟨"paragraphCountChanged", ["int"]⟩, .documentStatsWidget, ⟨"setParagraphCount", ["int"]⟩⟩,
    ⟨.documentStats, ⟨"pageCountChanged", ["int"]⟩, .documentStatsWidget, ⟨"setPageCount", ["int"]⟩⟩,
    ⟨.documentStats, ⟨"complexWordsChanged", ["int"]⟩, .documentStatsWidget, ⟨"setComplexWords", ["int"]⟩⟩,
    ⟨.documentStats, ⟨"readingTimeChanged", ["int"]⟩, .documentStatsWidget, ⟨"setReadingTime", ["int"]⟩⟩,
    ⟨.documentStats, ⟨"lixReadingEaseChanged", ["int"]⟩, .documentStatsWidget, ⟨"setLixReadingEase", ["int"]⟩⟩,
    ⟨.documentStats, ⟨"readabilityIndexChanged", ["int"]⟩, .documentStatsWidget, ⟨"setReadabilityIndex", ["int"]⟩⟩,
    ⟨.editor, ⟨"textSelected", ["QString", "int", "int"]⟩, .documentStats, ⟨"onTextSelected", ["QString", "int", "int"]⟩⟩,
    ⟨.editor, ⟨"textDeselected", []⟩, .documentStats, ⟨"onTextDeselected", []⟩⟩,
    ⟨.documentStats, ⟨"totalWordCountChanged", ["int"]⟩, .sessionStats, ⟨"onDocumentWordCountChanged", ["int"]⟩⟩,
    ⟨.sessionStats, ⟨"wordCountChanged", ["int"]⟩, .sessionStatsWidget, ⟨"setWordCount", ["int"]⟩⟩,
    ⟨.sessionStats, ⟨"pageCountChanged", ["int"]⟩, .sessionStatsWidget, ⟨"setPageCount", ["int"]⟩⟩,
    ⟨.sessionStats, ⟨"wordsPerMinuteChanged", ["int"]⟩, .sessionStatsWidget, ⟨"setWordsPerMinute", ["int"]⟩⟩,
    ⟨.sessionStats, ⟨"writingTimeChanged", ["unsigned long"]⟩, .sessionStatsWidget, ⟨"setWritingTime", ["unsigned long"]⟩⟩,
    ⟨.sessionStats, ⟨"idleTimePercentageChanged", ["int"]⟩, .sessionStatsWidget, ⟨"setIdleTime", ["int"]⟩⟩,
    ⟨.editor, ⟨"typingPaused", []⟩, .sessionStats, ⟨"onTypingPaused", []⟩⟩,
    ⟨.editor, ⟨"typingResumed", []⟩, .sessionStats, ⟨"onTypingResumed", []⟩⟩ ]

/-- The `connect` statement the constructor makes before it calls
`buildSidebar` (MainWindow.cpp line 123). -/
def constructorConnectionsBefore : List Connection :=
  [ ⟨.editor, ⟨"fontSizeChanged", ["int"]⟩, .mainWindow, ⟨"onFontSizeChanged", ["int"]⟩⟩ ]

/-- The `connect` statements of the constructor body after `buildSidebar`
(MainWindow.cpp lines 140-145, 264-283, 310-324, 336-339), in source order.
The per-action connection of the recent-files loop (sender a fresh `QAction`)
is not listed: its sender is none of the member objects of `QObj`. -/
def constructorConnectionsAfter : List Connection :=
  [ ⟨.documentManager, ⟨"documentDisplayNameChanged", ["QString"]⟩, .mainWindow, ⟨"changeDocumentDisplayName", ["QString"]⟩⟩,
    ⟨.documentManager, ⟨"documentModifiedChanged", ["bool"]⟩, .mainWindow, ⟨"setWindowModified", ["bool"]⟩⟩,
    ⟨.documentManager, ⟨"operationStarted", ["QString"]⟩, .mainWindow, ⟨"onOperationStarted", ["QString"]⟩⟩,
    ⟨.documentManager, ⟨"operationUpdate", ["QString"]⟩, .mainWindow, ⟨"onOperationStarted", ["QString"]⟩⟩,
    ⟨.documentManager, ⟨"operationFinished", []⟩, .mainWindow, ⟨"onOperationFinished", []⟩⟩,
    ⟨.documentManager, ⟨"documentClosed", []⟩, .mainWindow, ⟨"refreshRecentFiles", []⟩⟩,
    ⟨.appSettings, ⟨"autoSaveChanged", ["bool"]⟩, .documentManager, ⟨"setAutoSaveEnabled", ["bool"]⟩⟩,
    ⟨.appSettings, ⟨"backupFileChanged", ["bool"]⟩, .documentManager, ⟨"setFileBackupEnabled", ["bool"]⟩⟩,
    ⟨.appSettings, ⟨"tabWidthChanged", ["int"]⟩, .editor, ⟨"setTabulationWidth", ["int"]⟩⟩,
    ⟨.appSettings, ⟨"insertSpacesForTabsChanged", ["bool"]⟩, .editor, ⟨"setInsertSpacesForTabs", ["bool"]⟩⟩,
    ⟨.appSettings, ⟨"useUnderlineForEmphasisChanged", ["bool"]⟩, .editor, ⟨"setUseUnderlineForEmphasis", ["bool"]⟩⟩,
    ⟨.appSettings, ⟨"largeHeadingSizesChanged", ["bool"]⟩, .editor, ⟨"setEnableLargeHeadingSizes", ["bool"]⟩⟩,
    ⟨.appSettings, ⟨"autoMatchChanged", ["bool"]⟩, .editor, ⟨"setAutoMatchEnabled", ["bool"]⟩⟩,
    ⟨.appSettings, ⟨"autoMatchCharChanged", ["QChar", "bool"]⟩, .editor, ⟨"setAutoMatchEnabled", ["QChar", "bool"]⟩⟩,
    ⟨.appSettings, ⟨"bulletPointCyclingChanged", ["bool"]⟩, .editor, ⟨"setBulletPointCyclingEnabled", ["bool"]⟩⟩,
    ⟨.appSettings, ⟨"autoMatchChanged", ["bool"]⟩, .editor, ⟨"setAutoMatchEnabled", ["bool"]⟩⟩,
    ⟨.appSettings, ⟨"focusModeChanged", ["FocusMode"]⟩, .mainWindow, ⟨"changeFocusMode", ["FocusMode"]⟩⟩,
    ⟨.appSettings, ⟨"hideMenuBarInFullScreenChanged", ["bool"]⟩, .mainWindow, ⟨"toggleHideMenuBarInFullScreen", ["bool"]⟩⟩,
    ⟨.appSettings, ⟨"fileHistoryChanged", ["bool"]⟩, .mainWindow, ⟨"toggleFileHistoryEnabled", ["bool"]⟩⟩,
    ⟨.appSettings, ⟨"displayTimeInFullScreenChanged", ["bool"]⟩, .mainWindow, ⟨"toggleDisplayTimeInFullScreen", ["bool"]⟩⟩,
    ⟨.appSettings, ⟨"dictionaryLanguageChanged", ["QString"]⟩, .editor, ⟨"setDictionary", ["QString"]⟩⟩,
    ⟨.appSettings, ⟨"liveSpellCheckChanged", ["bool"]⟩, .editor, ⟨"setSpellCheckEnabled", ["bool"]⟩⟩,
    ⟨.appSettings, ⟨"editorWidthChanged", ["EditorWidth"]⟩, .mainWindow, ⟨"changeEditorWidth", ["EditorWidth"]⟩⟩,
    ⟨.appSettings, ⟨"interfaceStyleChanged", ["InterfaceStyle"]⟩, .mainWindow, ⟨"changeInterfaceStyle", ["InterfaceStyle"]⟩⟩,
    ⟨.appSettings, ⟨"blockquoteStyleChanged", ["BlockquoteStyle"]⟩, .editor, ⟨"setBlockquoteStyle", ["BlockquoteStyle"]⟩⟩,
    ⟨.appSettings, ⟨"highlightLineBreaksChanged", ["bool"]⟩, .editor, ⟨"setHighlightLineBreaks", ["bool"]⟩⟩,
    ⟨.documentStats, ⟨"wordCountChanged", ["int"]⟩, .mainWindow, ⟨"updateWordCount", ["int"]⟩⟩,
    ⟨.sessionStats, ⟨"wordsPerMinuteChanged", ["int"]⟩, .mainWindow, ⟨"updateWordsPerMinute", ["int"]⟩⟩,
    ⟨.editor, ⟨"typingPausedScaled", []⟩, .htmlPreview, ⟨"updatePreview", []⟩⟩,
    ⟨.outlineWidget, ⟨"headingNumberNavigated", ["int"]⟩, .htmlPreview, ⟨"navigateToHeading", ["int"]⟩⟩,
    ⟨.appSettings, ⟨"currentHtmlExporterChanged", ["Exporter*"]⟩, .htmlPreview, ⟨"setHtmlExporter", ["Exporter*"]⟩⟩,
    ⟨.appSettings, ⟨"currentCssFileChanged", ["QString"]⟩, .htmlPreview, ⟨"setStyleSheet", ["QString"]⟩⟩ ]

/-- Every `connect` statement among the member objects, in the order the
constructor executes them (`buildSidebar` is called at line 133). -/
def mainWindowConnections : List Connection :=
  constructorConnectionsBefore ++ buildSidebarConnections ++ constructorConnectionsAfter

/-- The public slots declared by `SessionStatisticsWidget`
(sessionstatisticswidget.h lines 49-73). -/
def SessionStatisticsWidget_slots : List Sig :=
  [ ⟨"setWordCount", ["int"]⟩,
    ⟨"setPageCount", ["int"]⟩,
    ⟨"setWordsPerMinute", ["int"]⟩,
    ⟨"setWritingTime", ["int"]⟩,
    ⟨"setIdleTime", ["int"]⟩ ]

/-- The slots a receiver is known to declare: `some` when the class
declaration is available (only `SessionStatisticsWidget`), `none` when it is
not, in which case a named slot is taken to exist. -/
def declaredSlots : QObj → Option (List Sig)
  | .sessionStatsWidget => some SessionStatisticsWidget_slots
  | _ => none

/-- Whether the slot named by a `connect` statement is a member of the
receiver, as the string-based `connect` looks it up by normalized signature. -/
def slotDeclared (c : Connection) : Bool :=
  match declaredSlots c.receiver with
  | some slots => decide (c.slot ∈ slots)
  | none => true

/-- The argument check of the string-based `connect`: the slot takes a leading
part of the signal's parameter list, with identical type names. -/
def argsCompatible (c : Connection) : Bool :=
  decide (c.slot.params = c.signal.params.take c.slot.params.length)

/-- A `connect` statement establishes a connection only when the slot exists
in the receiver and the arguments are compatible; otherwise Qt reports a
warning at run time and connects nothing.  The signal is taken to exist in the
sender: no class declaration of a sender is available. -/
def established (c : Connection) : Bool :=
  slotDeclared c && argsCompatible c

/-- Delivery of one emission: every established connection of that sender and
signal invokes its slot, in connection order, with the leading arguments the
slot takes. -/
def emitSignal (table : List Connection) (sender : QObj) (signal : Sig)
    (args : List QVal) : List SlotCall :=
  (table.filter (fun c => decide (c.sender = sender) && decide (c.signal = signal)
      && established c)).map
    (fun c => ⟨c.receiver, c.slot, args.take c.slot.params.length⟩)

/-- The slot invocations of a delivery that land on a given receiver. -/
def callsTo (receiver : QObj) (calls : List SlotCall) : List SlotCall :=
  calls.filter (fun k => decide (k.receiver = receiver))

/-- One emission by a sender: the signal and its arguments. -/
structure Emission where
  sender : QObj
  signal : Sig
  args : List QVal
  deriving DecidableEq, Repr

/-- Delivery of a sequence of emissions, in order. -/
def deliverAll (table : List Connection) (es : List Emission) : List SlotCall :=
  es.flatMap (fun e => emitSignal table e.sender e.signal e.args)

/-- The word counts fed to the session tracker by a sequence of emissions: the
arguments of every delivered `sessionStats.onDocumentWordCountChanged(int)`. -/
def sessionWordCountFeed (table : List Connection) (es : List Emission) : List (List QVal) :=
  ((callsTo .sessionStats (deliverAll table es)).filter
    (fun k => decide (k.slot = ⟨"onDocumentWordCountChanged", ["int"]⟩))).map (fun k => k.args)

/-- The nine document metrics named by the notifications of the document
statistics engine (the stem of `<metric>Changed` and of `set<Metric>`). -/
def documentMetricNames : List String :=
  ["wordCount", "characterCount", "sentenceCount", "paragraphCount", "pageCount",
   "complexWords", "readingTime", "lixReadingEase", "readabilityIndex"]

/-- The established connections of a table that lead from `documentStats` to
`documentStatsWidget` for the notification of one metric. -/
def documentMetricConnections (table : List Connection) (metric : String) : List Connection :=
  table.filter (fun c => decide (c.sender = .documentStats)
    && decide (c.signal.name = metric ++ "Changed")
    && decide (c.receiver = .documentStatsWidget) && established c)

/-- The five notifications the session tracker publishes to the session display. -/
def sessionNotificationNames : List String :=
  ["wordCountChanged", "pageCountChanged", "wordsPerMinuteChanged", "writingTimeChanged",
   "idleTimePercentageChanged"]

/-- The `connect` statements of a table from `sessionStats` to `sessionStatsWidget`. -/
def sessionDisplayConnections (table : List Connection) : List Connection :=
  table.filter (fun c => decide (c.sender = .sessionStats) && decide (c.receiver = .sessionStatsWidget))

/-- An emission that belongs to the selection path: the editor's `textSelected` or
`textDeselected`, or one of the nine metric notifications of `documentStats` (the
fields that are republished scoped to the selection). -/
def isSelectionScoped (e : Emission) : Bool :=
  (decide (e.sender = .editor)
      && (decide (e.signal.name = "textSelected") || decide (e.signal.name = "textDeselected")))
  || (decide (e.sender = .documentStats)
      && (documentMetricNames.map (fun m => m ++ "Changed")).contains e.signal.name)

/-- The editor emission that reports a typing pause (`true`) or a resumption. -/
def typingEmission (paused : Bool) : Emission :=
  ⟨.editor, ⟨if paused then "typingPaused" else "typingResumed", []⟩, []⟩

/-- The session handler that matches a typing pause (`true`) or a resumption. -/
def typingHandlerCall (paused : Bool) : SlotCall :=
  ⟨.sessionStats, ⟨if paused then "onTypingPaused" else "onTypingResumed", []⟩, []⟩

/-! ## Part II. TextMetricsAnalyzer

The analyzer (`DocumentStatistics` in the repository) is not among the available
sources; `MainWindow.cpp` only wires its notifications.  The definitions of this
part are therefore modelled from the specification (section 4.1), one definition
per rule.  Divisions are checked: `none` stands for a division by zero, so that
"no division error occurs" is a statement about the model.  The model is the exact
computation; the optional cheaper mode for oversized documents, whose size ceiling
the specification leaves open, is not part of it. -/

/-- Modelled from the spec: the Unicode character classes the analyzer's rules name
("Unicode letters/digits", "uppercase letter", "whitespace").  The tables belong to
the platform, so they are a parameter of the model. -/
structure CharClasses where
  isLetterOrDigit : Char → Bool
  isUppercase : Char → Bool
  isWhitespace : Char → Bool

/-- Modelled from the spec: the classification restricted to ASCII, used to
evaluate the analyzer on concrete texts. -/
def asciiClasses : CharClasses :=
  { isLetterOrDigit := fun c => c.isAlphanum
    isUppercase := fun c => c.isUpper
    isWhitespace := fun c => c.isWhitespace }

/-- Modelled from the spec: the configuration constants, enumerated in the design
notes as `{averageReadingWpm, wordsPerPage, debounceIntervalMs, wpmWindowMinutes}`. -/
structure Config where
  averageReadingWpm : Nat
  wordsPerPage : Nat
  debounceIntervalMs : Nat
  wpmWindowMinutes : Nat
  deriving DecidableEq, Repr

/-- Modelled from the spec: the example constants of sections 4.1-4.3 (200 words
read per minute, 450 words per page, a five-minute window; 300 ms stands for "a few
hundred milliseconds"). -/
def exampleConfig : Config :=
  { averageReadingWpm := 200, wordsPerPage := 450, debounceIntervalMs := 300,
    wpmWindowMinutes := 5 }

/-- Modelled from the spec: a configuration is usable by the analyzer when the two
constants it divides by are positive. -/
def Config.valid (cfg : Config) : Prop :=
  0 < cfg.averageReadingWpm ∧ 0 < cfg.wordsPerPage

instance (cfg : Config) : Decidable cfg.valid := by
  unfold Config.valid
  exact inferInstance

/-- Modelled from the spec: `DocumentSnapshot`, the full text as a sequence of code
points and an optional selection sub-range `(start, end)`. -/
structure DocumentSnapshot where
  text : List Char
  selection : Option (Nat × Nat)
  deriving DecidableEq, Repr

/-- Modelled from the spec: the analyzed range, the substring of the selection when
a sub-range is present and the whole text otherwise. -/
def DocumentSnapshot.analyzedRange (s : DocumentSnapshot) : List Char :=
  match s.selection with
  | none => s.text
  | some (selStart, selEnd) => (s.text.drop selStart).take (selEnd - selStart)

/-- Modelled from the spec: `Metrics`, the derived value of one analysis (the LIX
band is left out: the spec gives no thresholds for it). -/
structure Metrics where
  wordCount : Nat
  characterCount : Nat
  sentenceCount : Nat
  paragraphCount : Nat
  pageCount : Nat
  complexWordCount : Nat
  readingTimeMinutes : Nat
  lixScore : ℚ
  readabilityIndex : ℚ
  deriving DecidableEq

/-- Modelled from the spec: the characters that may join two parts of a word, the
apostrophe and the hyphen. -/
def isJoiner (c : Char) : Bool :=
  c == Char.ofNat 39 || c == '-'

/-- Modelled from the spec: whether the next character of the input is a letter or
digit (so that a joiner before it is internal to a word). -/
def nextIsWordChar (K : CharClasses) : List Char → Bool
  | [] => false
  | d :: _ => K.isLetterOrDigit d

/-- Modelled from the spec: word segmentation as one pass over the text; `cur` is
the word being read, reversed.  A word is a maximal run of letters/digits plus
internal apostrophes/hyphens; every other character is a separator. -/
def wordsAux (K : CharClasses) : List Char → List Char → List (List Char)
  | cur, [] => if cur.isEmpty then [] else [cur.reverse]
  | cur, c :: rest =>
    if K.isLetterOrDigit c then wordsAux K (c :: cur) rest
    else if isJoiner c && !cur.isEmpty && nextIsWordChar K rest then wordsAux K (c :: cur) rest
    else if cur.isEmpty then wordsAux K [] rest
    else cur.reverse :: wordsAux K [] rest

/-- Modelled from the spec: the words of a text, in order. -/
def words (K : CharClasses) (t : List Char) : List (List Char) :=
  wordsAux K [] t

/-- Modelled from the spec: `wordCount`, the number of word runs. -/
def wordCount (K : CharClasses) (t : List Char) : Nat :=
  (words K t).length

/-- Modelled from the spec: `characterCount`, the count of all code points of the
analyzed range, whitespace included. -/
def characterCount (t : List Char) : Nat :=
  t.length

/-- Modelled from the spec: a sentence terminator, one of `.`, `?`, `!`. -/
def isTerminator (c : Char) : Bool :=
  c == '.' || c == '?' || c == '!'

/-- Modelled from the spec: the abbreviation guard; the terminator at index `i` is
immediately preceded by a single uppercase letter (an uppercase letter that does
not itself follow a letter or digit). -/
def abbreviationGuard (K : CharClasses) (t : List Char) : Nat → Bool
  | 0 => false
  | 1 => (t[0]?.map K.isUppercase).getD false
  | j + 2 => (t[j + 1]?.map K.isUppercase).getD false
      && !((t[j]?.map K.isLetterOrDigit).getD false)

/-- Modelled from the spec: index `i` ends a sentence when it holds a terminator
followed by whitespace or by the end of the text, unless the guard suppresses it. -/
def isSentenceBreak (K : CharClasses) (t : List Char) (i : Nat) : Bool :=
  (t[i]?.map isTerminator).getD false
    && (t[i + 1]?.map K.isWhitespace).getD true
    && !abbreviationGuard K t i

/-- Modelled from the spec: the indices at which the text is split into sentences. -/
def sentenceBreaks (K : CharClasses) (t : List Char) : List Nat :=
  (List.range t.length).filter (isSentenceBreak K t)

/-- Modelled from the spec: the text after the last sentence break (the whole text
when there is none), the candidate trailing partial sentence. -/
def trailingPartial (K : CharClasses) (t : List Char) : List Char :=
  match (sentenceBreaks K t).getLast? with
  | none => t
  | some i => t.drop (i + 1)

/-- Modelled from the spec: `sentenceCount`, one sentence per break, plus one for a
trailing partial sentence (trailing text that holds a word). -/
def sentenceCount (K : CharClasses) (t : List Char) : Nat :=
  (sentenceBreaks K t).length + (if (words K (trailingPartial K t)).isEmpty then 0 else 1)

/-- Modelled from the spec: the lines of a text, split at line feeds. -/
def splitLines : List Char → List (List Char)
  | [] => [[]]
  | c :: rest =>
    if c == Char.ofNat 10 then [] :: splitLines rest
    else
      match splitLines rest with
      | [] => [[c]]
      | l :: ls => (c :: l) :: ls

/-- Modelled from the spec: a blank line holds whitespace only. -/
def isBlankLine (K : CharClasses) (l : List Char) : Bool :=
  l.all K.isWhitespace

/-- Modelled from the spec: the number of maximal runs of non-blank lines;
`inRun` tells whether the previous line was non-blank. -/
def countParagraphRuns (K : CharClasses) : Bool → List (List Char) → Nat
  | _, [] => 0
  | inRun, l :: ls =>
    if isBlankLine K l then countParagraphRuns K false ls
    else (if inRun then 0 else 1) + countParagraphRuns K true ls

/-- Modelled from the spec: `paragraphCount`, the maximal runs of non-blank lines
separated by blank lines; leading and trailing blank runs do not count. -/
def paragraphCount (K : CharClasses) (t : List Char) : Nat :=
  countParagraphRuns K false (splitLines t)

/-- Modelled from the spec: a vowel character, one of a, e, i, o, u, y in either case. -/
def isVowel (c : Char) : Bool :=
  ['a', 'e', 'i', 'o', 'u', 'y'].contains c.toLower

/-- Modelled from the spec: the number of maximal runs of vowels in a word;
`inRun` tells whether the previous character was a vowel. -/
def countVowelGroups : Bool → List Char → Nat
  | _, [] => 0
  | inRun, c :: rest =>
    if isVowel c then (if inRun then 0 else 1) + countVowelGroups true rest
    else countVowelGroups false rest

/-- Modelled from the spec: the word ends in a silent "e" run, a single final `e`
that follows a non-vowel. -/
def endsWithSilentE (w : List Char) : Bool :=
  match w.reverse with
  | e :: p :: _ => e.toLower == 'e' && !isVowel p
  | _ => false

/-- Modelled from the spec: the syllable estimate of a word; count the vowel runs,
drop a trailing silent "e" run if the word has more than one vowel group, and clamp
the result to a minimum of 1. -/
def syllableEstimate (w : List Char) : Nat :=
  let groups := countVowelGroups false w
  max 1 (if 1 < groups && endsWithSilentE w then groups - 1 else groups)

/-- Modelled from the spec: a complex word has an estimated syllable count of at
least 3. -/
def isComplexWord (w : List Char) : Bool :=
  decide (3 ≤ syllableEstimate w)

/-- Modelled from the spec: `complexWordCount`, the number of complex words. -/
def complexWordCount (K : CharClasses) (t : List Char) : Nat :=
  ((words K t).filter isComplexWord).length

/-- Modelled from the spec: `longWordCount`, the number of words of length `> 6`. -/
def longWordCount (K : CharClasses) (t : List Char) : Nat :=
  ((words K t).filter (fun w => decide (6 < w.length))).length

/-- Modelled from the spec: a checked ratio of two counts; `none` is a division by
zero. -/
def checkedRatio (a b : Nat) : Option ℚ :=
  if b = 0 then none else some ((a : ℚ) / (b : ℚ))

/-- Modelled from the spec: a checked `ceil(a / b)`; `none` is a division by zero. -/
def checkedCeilDiv (a b : Nat) : Option Nat :=
  if b = 0 then none else some ⌈(a : ℚ) / (b : ℚ)⌉₊

/-- Modelled from the spec: `pageCount = ceil(wordCount / wordsPerPageConstant)`;
`0` when `wordCount == 0`. -/
def pageCount (cfg : Config) (wc : Nat) : Option Nat :=
  if wc = 0 then some 0 else checkedCeilDiv wc cfg.wordsPerPage

/-- Modelled from the spec: reading time, `ceil(wordCount / averageReadingWordsPerMinute)`
minutes; `0` when `wordCount == 0`; otherwise minimum `1`. -/
def readingTimeMinutes (cfg : Config) (wc : Nat) : Option Nat :=
  if wc = 0 then some 0 else (checkedCeilDiv wc cfg.averageReadingWpm).map (max 1)

/-- Modelled from the spec: `lix = (wordCount / sentenceCount) + 100 *
(longWordCount / wordCount)`; `0` when `wordCount == 0`. -/
def lixScore (wc sc longWords : Nat) : Option ℚ :=
  if wc = 0 then some 0
  else do
    let wordsPerSentence ← checkedRatio wc sc
    let longShare ← checkedRatio longWords wc
    pure (wordsPerSentence + 100 * longShare)

/-- Modelled from the spec: the secondary readability index, `0.4 * ((wordCount /
sentenceCount) + 100 * (complexWordCount / wordCount))`; `0` when either denominator
is `0`. -/
def readabilityIndex (wc sc complexWords : Nat) : Option ℚ :=
  if sc = 0 ∨ wc = 0 then some 0
  else do
    let wordsPerSentence ← checkedRatio wc sc
    let complexShare ← checkedRatio complexWords wc
    pure ((4 / 10 : ℚ) * (wordsPerSentence + 100 * complexShare))

/-- Modelled from the spec: `analyze(snapshot) -> Metrics`, every metric computed
over the analyzed range of the snapshot.  The result is `none` exactly when a
division by zero is met on the way. -/
def analyze (K : CharClasses) (cfg : Config) (s : DocumentSnapshot) : Option Metrics :=
  let t := s.analyzedRange
  let wc := wordCount K t
  let sc := sentenceCount K t
  let cw := complexWordCount K t
  do
    let pages ← pageCount cfg wc
    let minutes ← readingTimeMinutes cfg wc
    let lix ← lixScore wc sc (longWordCount K t)
    let index ← readabilityIndex wc sc cw
    pure
      { wordCount := wc
        characterCount := characterCount t
        sentenceCount := sc
        paragraphCount := paragraphCount K t
        pageCount := pages
        complexWordCount := cw
        readingTimeMinutes := minutes
        lixScore := lix
        readabilityIndex := index }

/-- Modelled from the spec: a snapshot of a whole document given as a string. -/
def wholeDocument (text : String) : DocumentSnapshot :=
  { text := text.toList, selection := none }

/-- Modelled from the spec: a single paragraph of `n` one-letter words separated by
blanks. -/
def wordsDocument : Nat → List Char
  | 0 => []
  | n + 1 => 'a' :: ' ' :: wordsDocument n

/-! ## Part III. SessionTracker

The session tracker (`SessionStatistics` in the repository) is not among the
available sources either.  The definitions of this part are modelled from the
specification (sections 3 and 4.2).  Times are milliseconds.  The words-per-minute
figure is not modelled: the specification leaves its window-elapsed divisor open. -/

/-- Modelled from the spec: the two activity states of the session tracker. -/
inductive ActivityState where
  | Idle
  | Typing
  deriving DecidableEq, Repr

/-- Modelled from the spec: `SessionState`.  `baselineWordCount` is the document
word count when the session was last reset, `previousWordCount` the last word count
fed to the tracker, `window` the rolling window of `(timestamp, wordsWritten)`
samples, oldest first. -/
structure SessionState where
  baselineWordCount : Nat
  previousWordCount : Nat
  activityState : ActivityState
  lastActivityTimestamp : Nat
  accumulatedWritingMillis : Nat
  accumulatedIdleMillis : Nat
  window : List (Nat × Nat)
  deriving DecidableEq, Repr

/-- Modelled from the spec: the events the tracker receives; every event but the
reset carries the time at which it arrives, a tick also the elapsed interval, a
reset the new document's current word count. -/
inductive SessionEvent where
  | typingResumed (timestamp : Nat)
  | typingPaused (timestamp : Nat)
  | wordCountChanged (timestamp : Nat) (newWordCount : Nat)
  | tick (timestamp : Nat) (elapsedMillis : Nat)
  | reset (newDocumentWordCount : Nat)
  deriving DecidableEq, Repr

/-- Modelled from the spec: the state of a tracker attached to a document with the
given word count; initial state Idle, nothing accumulated. -/
def SessionState.initial (documentWordCount : Nat) : SessionState :=
  { baselineWordCount := documentWordCount
    previousWordCount := documentWordCount
    activityState := .Idle
    lastActivityTimestamp := 0
    accumulatedWritingMillis := 0
    accumulatedIdleMillis := 0
    window := [] }

/-- Modelled from the spec: `delta = max(0, newWordCount - previousWordCount)`,
the difference taken in the integers. -/
def wordsWrittenDelta (previousWordCount newWordCount : Nat) : Nat :=
  (max 0 ((newWordCount : ℤ) - (previousWordCount : ℤ))).toNat

/-- Modelled from the spec: the "typing resumed" signal, Idle to Typing. -/
def onTypingResumed (s : SessionState) (timestamp : Nat) : SessionState :=
  { s with activityState := .Typing, lastActivityTimestamp := timestamp }

/-- Modelled from the spec: the "typing paused" signal, Typing to Idle. -/
def onTypingPaused (s : SessionState) (timestamp : Nat) : SessionState :=
  { s with activityState := .Idle, lastActivityTimestamp := timestamp }

/-- Modelled from the spec: the word-count feed; the delta is recorded as a sample
of words written and `previousWordCount` takes the new value, also after a net
deletion. -/
def onDocumentWordCountChanged (s : SessionState) (timestamp newWordCount : Nat) :
    SessionState :=
  { s with
    previousWordCount := newWordCount
    window := s.window ++ [(timestamp, wordsWrittenDelta s.previousWordCount newWordCount)] }

/-- Modelled from the spec: the samples of a window that lie within the last
`wpmWindowMinutes` minutes before `timestamp`. -/
def recentSamples (cfg : Config) (timestamp : Nat) (window : List (Nat × Nat)) :
    List (Nat × Nat) :=
  window.filter (fun sample => decide (timestamp < sample.1 + cfg.wpmWindowMinutes * 60000))

/-- Modelled from the spec: per-tick accounting; the elapsed interval goes to
`accumulatedWritingMillis` if the state is Typing, else to `accumulatedIdleMillis`,
and the window keeps its recent samples. -/
def onTick (cfg : Config) (s : SessionState) (timestamp elapsedMillis : Nat) : SessionState :=
  match s.activityState with
  | .Typing =>
    { s with
      accumulatedWritingMillis := s.accumulatedWritingMillis + elapsedMillis
      window := recentSamples cfg timestamp s.window }
  | .Idle =>
    { s with
      accumulatedIdleMillis := s.accumulatedIdleMillis + elapsedMillis
      window := recentSamples cfg timestamp s.window }

/-- Modelled from the spec: `reset()`; zeroes the accumulators, clears the rolling
window, sets the state to Idle and rebases the word counts to the new document's
current word count. -/
def SessionState.reset (s : SessionState) (newDocumentWordCount : Nat) : SessionState :=
  { s with
    baselineWordCount := newDocumentWordCount
    previousWordCount := newDocumentWordCount
    activityState := .Idle
    accumulatedWritingMillis := 0
    accumulatedIdleMillis := 0
    window := [] }

/-- Modelled from the spec: the tracker's reaction to one event. -/
def sessionStep (cfg : Config) (s : SessionState) : SessionEvent → SessionState
  | .typingResumed timestamp => onTypingResumed s timestamp
  | .typingPaused timestamp => onTypingPaused s timestamp
  | .wordCountChanged timestamp newWordCount => onDocumentWordCountChanged s timestamp newWordCount
  | .tick timestamp elapsedMillis => onTick cfg s timestamp elapsedMillis
  | .reset newDocumentWordCount => s.reset newDocumentWordCount

/-- Modelled from the spec: the tracker's state after a sequence of events. -/
def sessionRun (cfg : Config) (s : SessionState) : List SessionEvent → SessionState
  | [] => s
  | e :: es => sessionRun cfg (sessionStep cfg s e) es

/-- Modelled from the spec: whether an event is a reset. -/
def SessionEvent.isReset : SessionEvent → Bool
  | .reset _ => true
  | _ => false

/-- Modelled from the spec: whether an event is one of the two explicit activity
signals, "typing resumed" or "typing paused". -/
def SessionEvent.isActivitySignal : SessionEvent → Bool
  | .typingResumed _ => true
  | .typingPaused _ => true
  | _ => false

/-- Modelled from the spec: the total time ticked by a sequence of events. -/
def totalTickedMillis : List SessionEvent → Nat
  | [] => 0
  | .tick _ elapsedMillis :: es => elapsedMillis + totalTickedMillis es
  | _ :: es => totalTickedMillis es

/-- Modelled from the spec: the time of exactly the ticks of a sequence that are
taken while the tracker, started in state `s`, is in Typing. -/
def typingTickedMillis (cfg : Config) (s : SessionState) : List SessionEvent → Nat
  | [] => 0
  | e :: es =>
    (match e, s.activityState with
      | .tick _ elapsedMillis, .Typing => elapsedMillis
      | _, _ => 0)
    + typingTickedMillis cfg (sessionStep cfg s e) es

/-- Modelled from the spec: `idlePct = round(100 * accumulatedIdleMillis /
(accumulatedIdleMillis + accumulatedWritingMillis))`; `0` when both are `0`.  The
division is checked: `none` is a division by zero. -/
def idleTimePercentage (s : SessionState) : Option ℤ :=
  if s.accumulatedIdleMillis = 0 ∧ s.accumulatedWritingMillis = 0 then some 0
  else (checkedRatio (100 * s.accumulatedIdleMillis)
    (s.accumulatedIdleMillis + s.accumulatedWritingMillis)).map round

/-- Modelled from the spec: the scenario of section 8; starting Idle, typing
resumes, the word count goes `0 → 10 → 10 → 25` across three one-second ticks,
typing pauses, and the word count finally drops to `20`. -/
def sessionScenario : List SessionEvent :=
  [ .typingResumed 0,
    .wordCountChanged 500 10, .tick 1000 1000,
    .wordCountChanged 1500 10, .tick 2000 1000,
    .wordCountChanged 2500 25, .tick 3000 1000,
    .typingPaused 3200,
    .wordCountChanged 3500 20 ]

/-! ## Part IV. MainWindow: full screen, menu bar and time label

The state of `MainWindow` (src/src/MainWindow.cpp) that `toggleFullScreen`,
`toggleDisplayTimeInFullScreen`, `toggleHideMenuBarInFullScreen`, `buildMenuBar`,
`buildStatusBar` and `eventFilter` read and write.  The window-state calls of
`QWidget` follow the Qt documentation: `showFullScreen` sets the full-screen flag and
clears the maximized flag, `showMaximized` sets the maximized flag and clears the
full-screen flag, `showNormal` clears both.  Coordinates are C++ `int`s; they are only
compared, never computed with, so they are integers here. -/

/-- A `QPoint`: global pointer coordinates. -/
structure QPoint where
  x : Int
  y : Int
  deriving DecidableEq, Repr

/-- The events `eventFilter` distinguishes by `event->type()`; a mouse move carries
`globalPos()`. -/
inductive QEvent where
  | Leave
  | WindowDeactivate
  | MouseMove (globalPos : QPoint)
  | Other
  deriving DecidableEq, Repr

/-- The window-state calls `toggleFullScreen` makes on the main window. -/
inductive WindowCall where
  | showFullScreen
  | showMaximized
  | showNormal
  deriving DecidableEq, Repr

/-- The part of the state of `MainWindow` the functions of this part use.
`isFullScreen`, `isMaximized` are the window-state flags of the widget;
`menuBarVisible` and `menuBarWidgetHeight` are `menuBar()->isVisible()` and
`menuBar()->height()`; `lastStateWasMaximized` is the function-local static of
`toggleFullScreen`; `timeLabelVisible` tells that the time label is not hidden;
the two `...Enabled` fields are the values `appSettings` returns; `windowCalls`
records the window-state calls made so far, oldest first. -/
structure MainWindow where
  isFullScreen : Bool
  isMaximized : Bool
  menuBarVisible : Bool
  menuBarWidgetHeight : Int
  menuBarHeight : Int
  lastMousePos : QPoint
  menuBarMenuActivated : Bool
  lastStateWasMaximized : Bool
  fullScreenMenuActionChecked : Bool
  fullScreenButtonChecked : Bool
  timeLabelVisible : Bool
  displayTimeInFullScreenEnabled : Bool
  hideMenuBarInFullScreenEnabled : Bool
  windowCalls : List WindowCall
  deriving DecidableEq, Repr

/-- The call `QWidget::showFullScreen()`. -/
def MainWindow.showFullScreen (w : MainWindow) : MainWindow :=
  { w with isFullScreen := true, isMaximized := false,
           windowCalls := w.windowCalls ++ [.showFullScreen] }

/-- The call `QWidget::showMaximized()`. -/
def MainWindow.showMaximized (w : MainWindow) : MainWindow :=
  { w with isFullScreen := false, isMaximized := true,
           windowCalls := w.windowCalls ++ [.showMaximized] }

/-- The call `QWidget::showNormal()`. -/
def MainWindow.showNormal (w : MainWindow) : MainWindow :=
  { w with isFullScreen := false, isMaximized := false,
           windowCalls := w.windowCalls ++ [.showNormal] }

/-- The function `MainWindow::isMenuBarVisible` (lines 1633-1636). -/
def MainWindow.isMenuBarVisible (w : MainWindow) : Bool :=
  w.menuBarVisible

/-- The function `MainWindow::showMenuBar` (lines 1609-1612). -/
def MainWindow.showMenuBar (w : MainWindow) : MainWindow :=
  { w with menuBarVisible := true }

/-- The function `MainWindow::hideMenuBar` (lines 1614-1631): the menu bar height
is stored unconditionally (the guard is commented out), then the bar is hidden. -/
def MainWindow.hideMenuBar (w : MainWindow) : MainWindow :=
  { w with menuBarHeight := w.menuBarWidgetHeight, menuBarVisible := false }

/-- The function `MainWindow::toggleFullScreen` (lines 626-685).  The menu action is
set with its signals blocked, so the call does not re-enter. -/
def MainWindow.toggleFullScreen (checked : Bool) (w0 : MainWindow) : MainWindow :=
  let w := { w0 with fullScreenMenuActionChecked := checked }
  if w.isFullScreen || !checked then
    let w1 := if w.displayTimeInFullScreenEnabled then { w with timeLabelVisible := false } else w
    let w2 := if w1.lastStateWasMaximized then w1.showMaximized else w1.showNormal
    if w2.hideMenuBarInFullScreenEnabled then w2.showMenuBar else w2
  else
    let w1 := if w.displayTimeInFullScreenEnabled then { w with timeLabelVisible := true } else w
    let w2 :=
      if w1.isMaximized then { w1 with lastStateWasMaximized := true }
      else { w1 with lastStateWasMaximized := false }
    let w3 := w2.showFullScreen
    if w3.hideMenuBarInFullScreenEnabled then w3.hideMenuBar else w3

/-- The function `MainWindow::toggleHideMenuBarInFullScreen` (lines 687-700). -/
def MainWindow.toggleHideMenuBarInFullScreen (checked : Bool) (w : MainWindow) : MainWindow :=
  if w.isFullScreen then
    if checked then w.hideMenuBar else w.showMenuBar
  else w

/-- The function `MainWindow::toggleDisplayTimeInFullScreen` (lines 721-734). -/
def MainWindow.toggleDisplayTimeInFullScreen (checked : Bool) (w : MainWindow) : MainWindow :=
  if w.isFullScreen then
    if checked then { w with timeLabelVisible := true } else { w with timeLabelVisible := false }
  else w

/-- The part of `MainWindow::buildMenuBar` that writes the state (lines 1186 and
1257-1259): the menu bar height is read and the Full Screen action is created
checked when the window is full-screen. -/
def MainWindow.buildMenuBar (w : MainWindow) : MainWindow :=
  { w with menuBarHeight := w.menuBarWidgetHeight, fullScreenMenuActionChecked := w.isFullScreen }

/-- The part of `MainWindow::buildStatusBar` that writes the state (lines 1337-1344
and 1401-1408): the time label is created (a new child widget is not hidden) and
then hidden under the condition of line 1341; the full-screen button is created
checked when the window is full-screen. -/
def MainWindow.buildStatusBar (w : MainWindow) : MainWindow :=
  let w1 := { w with timeLabelVisible := true }
  let w2 :=
    if !w1.isFullScreen || w1.displayTimeInFullScreenEnabled then
      { w1 with timeLabelVisible := false }
    else w1
  { w2 with fullScreenButtonChecked := w2.isFullScreen }

/-- The hot-spot height of the mouse-move branch of `eventFilter` (lines 486-491):
20, or the stored menu bar height when the menu bar is visible. -/
def MainWindow.hotSpotHeight (w : MainWindow) : Int :=
  if w.isMenuBarVisible then w.menuBarHeight else 20

/-- The function `MainWindow::eventFilter` (lines 460-528); the second component is
the returned value, always `false`. -/
def MainWindow.eventFilter (w : MainWindow) (event : QEvent) : MainWindow × Bool :=
  if (decide (event = .Leave) || decide (event = .WindowDeactivate))
      && w.isFullScreen
      && w.hideMenuBarInFullScreenEnabled
      && w.isMenuBarVisible
      && (decide (w.lastMousePos.y ≥ w.menuBarHeight) || decide (w.lastMousePos.y < 0))
      && !w.menuBarMenuActivated then
    (w.hideMenuBar, false)
  else
    match event with
    | .MouseMove globalPos =>
      let hotSpotHeight := w.hotSpotHeight
      let w1 :=
        if w.isFullScreen && w.hideMenuBarInFullScreenEnabled then
          if globalPos.y < hotSpotHeight then
            if (decide (w.lastMousePos.y < 0) || decide (w.lastMousePos.y ≥ hotSpotHeight))
                && !w.isMenuBarVisible then
              w.showMenuBar
            else w
          else if (decide (w.lastMousePos.y < 0) || decide (w.lastMousePos.y < hotSpotHeight))
              && w.isMenuBarVisible
              && !w.menuBarMenuActivated then
            w.hideMenuBar
          else w
        else w
      ({ w1 with lastMousePos := globalPos }, false)
    | _ => (w, false)

/-- The operations on the window that this part follows: a call of
`toggleFullScreen`, a change of one of the two settings (`appSettings` stores the
value and emits the `...Changed(bool)` signal, which the constructor connects to the
matching `toggle...` slot at lines 275 and 277), and an event seen by `eventFilter`. -/
inductive WindowOp where
  | toggleFullScreen (checked : Bool)
  | displayTimeInFullScreenChanged (checked : Bool)
  | hideMenuBarInFullScreenChanged (checked : Bool)
  | event (e : QEvent)
  deriving DecidableEq, Repr

/-- The effect of one operation. -/
def MainWindow.apply (w : MainWindow) : WindowOp → MainWindow
  | .toggleFullScreen checked => w.toggleFullScreen checked
  | .displayTimeInFullScreenChanged checked =>
    MainWindow.toggleDisplayTimeInFullScreen checked
      { w with displayTimeInFullScreenEnabled := checked }
  | .hideMenuBarInFullScreenChanged checked =>
    MainWindow.toggleHideMenuBarInFullScreen checked
      { w with hideMenuBarInFullScreenEnabled := checked }
  | .event e => (w.eventFilter e).1

/-- The effect of a sequence of operations, in order. -/
def MainWindow.applyAll (w : MainWindow) : List WindowOp → MainWindow
  | [] => w
  | op :: ops => (w.apply op).applyAll ops

/-- Whether an operation is a call of `toggleFullScreen`. -/
def WindowOp.isToggleFullScreen : WindowOp → Bool
  | .toggleFullScreen _ => true
  | _ => false

/-- The time label is shown exactly when the window is full-screen and the
display-time-in-full-screen setting is enabled. -/
def MainWindow.timeLabelInvariant (w : MainWindow) : Prop :=
  w.timeLabelVisible = (w.isFullScreen && w.displayTimeInFullScreenEnabled)

instance (w : MainWindow) : Decidable w.timeLabelInvariant := by
  unfold MainWindow.timeLabelInvariant
  exact inferInstance

/-- A window as the constructor finds it after `restoreGeometry` when the saved
geometry is full-screen: full-screen, menu bar visible and 30 pixels high, display of
the time in full screen enabled. -/
def restoredFullScreenWindow : MainWindow :=
  { isFullScreen := true
    isMaximized := false
    menuBarVisible := true
    menuBarWidgetHeight := 30
    menuBarHeight := 0
    lastMousePos := ⟨-1, -1⟩
    menuBarMenuActivated := false
    lastStateWasMaximized := false
    fullScreenMenuActionChecked := false
    fullScreenButtonChecked := false
    timeLabelVisible := false
    displayTimeInFullScreenEnabled := true
    hideMenuBarInFullScreenEnabled := true
    windowCalls := [] }

/-- A maximized window that is not full-screen, otherwise like
`restoredFullScreenWindow`. -/
def maximizedWindow : MainWindow :=
  { restoredFullScreenWindow with isFullScreen := false, isMaximized := true }

/-- The function `MainWindow::onAboutToShowMenuBarMenu` (lines 1139-1152). -/
def MainWindow.onAboutToShowMenuBarMenu (w0 : MainWindow) : MainWindow :=
  let w := { w0 with menuBarMenuActivated := true }
  if w.isFullScreen && w.hideMenuBarInFullScreenEnabled && !w.isMenuBarVisible then
    w.showMenuBar
  else w

/-- The function `MainWindow::onAboutToHideMenuBarMenu` (lines 1123-1137);
`underMouse` is the value of `menuBar()->underMouse()`. -/
def MainWindow.onAboutToHideMenuBarMenu (underMouse : Bool) (w0 : MainWindow) : MainWindow :=
  let w := { w0 with menuBarMenuActivated := false }
  if !underMouse && w.isFullScreen && w.hideMenuBarInFullScreenEnabled && w.isMenuBarVisible then
    w.hideMenuBar
  else w

/-- The window after `eventFilter` has seen a sequence of events, in order. -/
def MainWindow.filterAll (w : MainWindow) : List QEvent → MainWindow
  | [] => w
  | e :: es => ((w.eventFilter e).1).filterAll es

/-- A full-screen window with the menu bar shown (30 pixels high), a menu of the
menu bar open and the pointer last seen inside the menu bar. -/
def menuOpenWindow : MainWindow :=
  { restoredFullScreenWindow with
    menuBarMenuActivated := true
    menuBarHeight := 30
    lastMousePos := ⟨40, 10⟩ }

/-! ## Part V. MainWindow: splitter sizes, recent files, closing, sidebar tab

Further functions of src/src/MainWindow.cpp.  What they obtain from classes that are
not among the available sources (`DocumentHistory`, `DocumentManager`, `Sidebar`) is
a parameter of the definitions. -/

/-- The value of a C++ `int` computation: the mathematical result wrapped to 32 bits
in two's complement. -/
def toInt32 (n : Int) : Int :=
  (n + 2147483648) % 4294967296 - 2147483648

/-- Whether an integer is a value of the C++ type `int`. -/
def isInt32 (n : Int) : Prop :=
  -2147483648 ≤ n ∧ n < 2147483648

instance (n : Int) : Decidable (isInt32 n) := by
  unfold isInt32
  exact inferInstance

/-- What `adjustEditorWidth` computes: the size lists passed to
`sidebarSplitter->setSizes` and `editorSplitter->setSizes`, and the width passed to
`editor->setupPaperMargins`. -/
structure SplitterSizes where
  sidebarSplitterSizes : List Int
  editorSplitterSizes : List Int
  paperMarginsWidth : Int
  deriving DecidableEq, Repr

/-- The function `MainWindow::adjustEditorWidth` (lines 1517-1551).
`primaryScreenWidth` is `qApp->primaryScreen()->size().width()`, `sidebarWidth` the
value `sidebar->width()` returns after the `resize` call, `htmlPreviewVisible` the
value of `htmlPreview->isVisible()`.  The comparison with `0.5 * width` is made in
`double`, where both sides are exact; it is made in the rationals here.  The
subtraction is an `int` subtraction, the division an `int` division (truncating). -/
def adjustEditorWidth (width primaryScreenWidth sidebarWidth : Int)
    (htmlPreviewVisible : Bool) : SplitterSizes :=
  let narrow : Bool := decide ((width : ℚ) < (1 / 2 : ℚ) * (primaryScreenWidth : ℚ))
  let sidebarSize : Int := if narrow then 0 else sidebarWidth
  let editorWidth : Int := if narrow then width else toInt32 (width - sidebarWidth)
  let sidebarSplitterSizes : List Int := [sidebarSize, editorWidth]
  if htmlPreviewVisible then
    { sidebarSplitterSizes := sidebarSplitterSizes
      editorSplitterSizes := [editorWidth.tdiv 2, editorWidth.tdiv 2]
      paperMarginsWidth := editorWidth.tdiv 2 }
  else
    { sidebarSplitterSizes := sidebarSplitterSizes
      editorSplitterSizes := [editorWidth]
      paperMarginsWidth := editorWidth }

/-- The state of one entry of `recentFilesActions` that `refreshRecentFiles` writes:
the text, the data and the visibility of the `QAction`. -/
structure RecentFileAction where
  text : String
  data : String
  visible : Bool
  deriving DecidableEq, Repr

/-- The list `recentFiles` of `refreshRecentFiles` after the current document has
been removed from it (lines 966-974): unchanged for a new document, otherwise without
any entry equal to the document's absolute file path. -/
def remainingRecentFiles (recentFiles : List String) (documentIsNew : Bool)
    (sanitizedPath : String) : List String :=
  if !documentIsNew then recentFiles.filter (fun f => decide (f ≠ sanitizedPath))
  else recentFiles

/-- The first loop of `refreshRecentFiles` (lines 976-981): for `i` below both
`MAX_RECENT_FILES` and `recentFiles.size()`, action `i` gets the `i`-th entry as text
and as data and is made visible. -/
def showRecentFiles (maxRecentFiles : Nat) (recentFiles : List String)
    (actions : List RecentFileAction) : List RecentFileAction :=
  (List.range (min maxRecentFiles recentFiles.length)).foldl
    (fun acts i => acts.set i
      { text := recentFiles.getD i "", data := recentFiles.getD i "", visible := true })
    actions

/-- The second loop of `refreshRecentFiles` (lines 983-986): for `i` from
`recentFiles.size()` up to `MAX_RECENT_FILES`, action `i` is made invisible. -/
def hideUnusedRecentFiles (maxRecentFiles : Nat) (recentFiles : List String)
    (actions : List RecentFileAction) : List RecentFileAction :=
  (List.range' recentFiles.length (maxRecentFiles - recentFiles.length)).foldl
    (fun acts i =>
      match acts[i]? with
      | some a => acts.set i { a with visible := false }
      | none => acts)
    actions

/-- The function `MainWindow::refreshRecentFiles` (lines 961-988).
`maxRecentFiles` is the constant `MAX_RECENT_FILES`, `recentFiles` the list that
`history.getRecentFiles(MAX_RECENT_FILES + 1)` returns, `documentIsNew` and
`sanitizedPath` the current document's `isNew()` and absolute file path, `actions`
the array `recentFilesActions`. -/
def refreshRecentFiles (maxRecentFiles : Nat) (fileHistoryEnabled : Bool)
    (recentFiles : List String) (documentIsNew : Bool) (sanitizedPath : String)
    (actions : List RecentFileAction) : List RecentFileAction :=
  if fileHistoryEnabled then
    let remaining := remainingRecentFiles recentFiles documentIsNew sanitizedPath
    hideUnusedRecentFiles maxRecentFiles remaining
      (showRecentFiles maxRecentFiles remaining actions)
  else actions

/-- The tabs `buildSidebar` adds to the sidebar, in order (lines 1502-1505). -/
def sidebarTabs : List String :=
  ["Outline", "Session Statistics", "Document Statistics", "Cheat Sheet"]

/-- The enumerator `FirstSidebarTab` of `SidebarTabIndex` (lines 79-87). -/
def FirstSidebarTab : Int := 0

/-- The tab index `buildSidebar` passes to `sidebar->setCurrentTab` (lines
1507-1514); `tabIndex` is the stored `sidebarCurrentTab` value as `toInt()` returns
it, `count` the value of `sidebar->getCount()`. -/
def selectedSidebarTab (tabIndex count : Int) : Int :=
  if tabIndex < 0 || tabIndex ≥ count then FirstSidebarTab else tabIndex

/-- The tab index selected by `buildSidebar`, where the sidebar holds the tabs
added just before. -/
def buildSidebarTabIndex (tabIndex : Int) : Int :=
  selectedSidebarTab tabIndex (sidebarTabs.length : Int)

/-! ## Theorems -/

/-- The established connections into `sessionStats.onDocumentWordCountChanged(int)`. -/
theorem connections_into_onDocumentWordCountChanged :
    mainWindowConnections.filter (fun c => established c && (decide (c.receiver = .sessionStats)
        && decide (c.slot = ⟨"onDocumentWordCountChanged", ["int"]⟩)))
      = [⟨.documentStats, ⟨"totalWordCountChanged", ["int"]⟩, .sessionStats,
          ⟨"onDocumentWordCountChanged", ["int"]⟩⟩] := by
  decide

/-- The word-count feed produced by a single emission. -/
theorem sessionWordCountFeed_single (e : Emission) :
    sessionWordCountFeed mainWindowConnections [e]
      = if e.sender = .documentStats ∧ e.signal = ⟨"totalWordCountChanged", ["int"]⟩
        then [e.args.take 1] else [] := by
  have key : sessionWordCountFeed mainWindowConnections [e]
      = ((mainWindowConnections.filter (fun c => established c && (decide (c.receiver = .sessionStats)
          && decide (c.slot = ⟨"onDocumentWordCountChanged", ["int"]⟩)))).filter
          (fun c => decide (c.sender = e.sender) && decide (c.signal = e.signal))).map
          (fun c => e.args.take c.slot.params.length) := by
    simp only [sessionWordCountFeed, deliverAll, callsTo, emitSignal, List.flatMap_cons,
      List.flatMap_nil, List.append_nil, List.filter_map, List.map_map, List.filter_filter]
    congr 1
    apply List.filter_congr
    intro c _
    simp only [Function.comp]
    cases established c <;> cases decide (c.sender = e.sender) <;> cases decide (c.signal = e.signal)
      <;> cases decide (c.receiver = QObj.sessionStats) <;> simp
  rw [key, connections_into_onDocumentWordCountChanged]
  simp only [List.filter_cons, List.filter_nil]
  by_cases h1 : QObj.documentStats = e.sender
  · by_cases h2 : (⟨"totalWordCountChanged", ["int"]⟩ : Sig) = e.signal
    · rw [if_pos (by simp only [h1, h2, decide_True, Bool.and_self]), if_pos ⟨h1.symm, h2.symm⟩]
      rfl
    · rw [if_neg (by simp only [h2, decide_False, Bool.and_false, Bool.false_eq_true,
        not_false_eq_true]), if_neg (fun h => h2 h.2.symm)]
      rfl
  · rw [if_neg (by simp only [h1, decide_False, Bool.false_and, Bool.false_eq_true,
      not_false_eq_true]), if_neg (fun h => h1 h.1.symm)]
    rfl

/-- The feed of a sequence is the concatenation of the feeds of its emissions. -/
theorem sessionWordCountFeed_cons (e : Emission) (es : List Emission) :
    sessionWordCountFeed mainWindowConnections (e :: es)
      = sessionWordCountFeed mainWindowConnections [e]
        ++ sessionWordCountFeed mainWindowConnections es := by
  simp only [sessionWordCountFeed, deliverAll, callsTo, List.flatMap_cons, List.flatMap_nil,
    List.append_nil, List.filter_append, List.map_append]

/-- The whole-document word counts carried by a sequence of emissions: the
argument of each `documentStats.totalWordCountChanged(int)` in it. -/
theorem sessionWordCountFeed_eq (es : List Emission) :
    sessionWordCountFeed mainWindowConnections es
      = (es.filter (fun e => decide (e.sender = .documentStats
            ∧ e.signal = ⟨"totalWordCountChanged", ["int"]⟩))).map (fun e => e.args.take 1) := by
  induction es with
  | nil => rfl
  | cons e es ih =>
    rw [sessionWordCountFeed_cons, ih, sessionWordCountFeed_single, List.filter_cons]
    by_cases h : e.sender = .documentStats ∧ e.signal = ⟨"totalWordCountChanged", ["int"]⟩
    · rw [if_pos h, if_pos (by simpa using h)]
      rfl
    · rw [if_neg h, if_neg (by simpa using h)]
      rfl

/-- A `totalWordCountChanged` emission of `documentStats` is not selection-scoped. -/
theorem not_isSelectionScoped_of_total (e : Emission)
    (h : e.sender = .documentStats ∧ e.signal = ⟨"totalWordCountChanged", ["int"]⟩) :
    isSelectionScoped e = false := by
  obtain ⟨sender, signal, args⟩ := e
  obtain ⟨h1, h2⟩ := h
  simp only at h1 h2
  subst h1 h2
  rfl

/-- Deleting the selection-scoped emissions of a sequence does not change the feed. -/
theorem sessionWordCountFeed_drop_selection (es : List Emission) :
    sessionWordCountFeed mainWindowConnections es
      = sessionWordCountFeed mainWindowConnections
          (es.filter (fun e => !isSelectionScoped e)) := by
  rw [sessionWordCountFeed_eq, sessionWordCountFeed_eq, List.filter_filter]
  congr 1
  apply List.filter_congr
  intro e _
  by_cases h : e.sender = .documentStats ∧ e.signal = ⟨"totalWordCountChanged", ["int"]⟩
  · simp [h, not_isSelectionScoped_of_total e h]
  · simp [h]

/-- C1: the session tracker's word-count feed is the whole-document word count.
The only established connection into `sessionStats.onDocumentWordCountChanged`
comes from `documentStats.totalWordCountChanged`; no connect statement leads from
`documentStats.wordCountChanged` to `sessionStats`; an emission of the
selection-scoped `wordCountChanged`, of `textSelected` or of `textDeselected`
delivers nothing to `sessionStats`; and for every sequence of emissions the values
fed to the tracker are exactly the arguments of the `totalWordCountChanged`
emissions of `documentStats`, so that deleting every selection event and every
selection-scoped metric notification from the sequence leaves the feed unchanged. -/
theorem session_feed_is_total_word_count :
    (mainWindowConnections.filter (fun c => decide (c.receiver = .sessionStats)
        && decide (c.slot.name = "onDocumentWordCountChanged")))
      = [⟨.documentStats, ⟨"totalWordCountChanged", ["int"]⟩, .sessionStats,
          ⟨"onDocumentWordCountChanged", ["int"]⟩⟩]
    ∧ (∀ c ∈ mainWindowConnections, c.sender = .documentStats →
        c.signal.name = "wordCountChanged" → c.receiver ≠ .sessionStats)
    ∧ (∀ v : Int, emitSignal mainWindowConnections .documentStats
          ⟨"totalWordCountChanged", ["int"]⟩ [.int v]
        = [⟨.sessionStats, ⟨"onDocumentWordCountChanged", ["int"]⟩, [.int v]⟩])
    ∧ (∀ args, callsTo .sessionStats (emitSignal mainWindowConnections .documentStats
          ⟨"wordCountChanged", ["int"]⟩ args) = [])
    ∧ (∀ args, callsTo .sessionStats (emitSignal mainWindowConnections .editor
          ⟨"textSelected", ["QString", "int", "int"]⟩ args) = [])
    ∧ (∀ args, callsTo .sessionStats (emitSignal mainWindowConnections .editor
          ⟨"textDeselected", []⟩ args) = [])
    ∧ (∀ es : List Emission, sessionWordCountFeed mainWindowConnections es
        = (es.filter (fun e => decide (e.sender = .documentStats
            ∧ e.signal = ⟨"totalWordCountChanged", ["int"]⟩))).map (fun e => e.args.take 1))
    ∧ (∀ es : List Emission, sessionWordCountFeed mainWindowConnections es
        = sessionWordCountFeed mainWindowConnections
            (es.filter (fun e => !isSelectionScoped e))) := by
  refine ⟨by decide, by decide, fun v => rfl, fun args => rfl, fun args => rfl,
    fun args => rfl, sessionWordCountFeed_eq, sessionWordCountFeed_drop_selection⟩

/-- C2: typing-activity events are forwarded verbatim to the session tracker.
Exactly one connect statement has the editor's `typingPaused()` as its signal and
exactly one has `typingResumed()`; they lead to `sessionStats.onTypingPaused()` and
`sessionStats.onTypingResumed()` respectively; an emission of either signal invokes
the matching handler once and no other slot; and a sequence of pause/resume events
is delivered as the same sequence of matching handler calls. -/
theorem typing_events_forwarded_verbatim :
    (mainWindowConnections.filter (fun c => decide (c.sender = .editor)
        && decide (c.signal.name = "typingPaused")))
      = [⟨.editor, ⟨"typingPaused", []⟩, .sessionStats, ⟨"onTypingPaused", []⟩⟩]
    ∧ (mainWindowConnections.filter (fun c => decide (c.sender = .editor)
        && decide (c.signal.name = "typingResumed")))
      = [⟨.editor, ⟨"typingResumed", []⟩, .sessionStats, ⟨"onTypingResumed", []⟩⟩]
    ∧ (∀ args, emitSignal mainWindowConnections .editor ⟨"typingPaused", []⟩ args
        = [⟨.sessionStats, ⟨"onTypingPaused", []⟩, []⟩])
    ∧ (∀ args, emitSignal mainWindowConnections .editor ⟨"typingResumed", []⟩ args
        = [⟨.sessionStats, ⟨"onTypingResumed", []⟩, []⟩])
    ∧ (∀ events : List Bool, deliverAll mainWindowConnections (events.map typingEmission)
        = events.map typingHandlerCall) := by
  refine ⟨by decide, by decide, fun args => ?_, fun args => ?_, fun events => ?_⟩
  · cases args <;> rfl
  · cases args <;> rfl
  · induction events with
    | nil => rfl
    | cons b bs ih =>
      have hb : emitSignal mainWindowConnections (typingEmission b).sender
          (typingEmission b).signal (typingEmission b).args = [typingHandlerCall b] := by
        cases b <;> rfl
      simp only [deliverAll, List.map_cons, List.flatMap_cons] at ih ⊢
      rw [hb, ih]
      rfl

/-- C3 (evaluation of the code where the claim fails): the connect statement for
the writing-time notification names the slot `setWritingTime(unsigned long)`, which
`SessionStatisticsWidget` does not declare (it declares `setWritingTime(int)`), so
the connection is not established and an emission of `writingTimeChanged` invokes
no slot; the other four session notifications do reach a declared slot. -/
theorem writingTime_notification_reaches_no_slot :
    (sessionDisplayConnections mainWindowConnections).map (fun c => (c.signal.name, c.slot))
      = [("wordCountChanged", ⟨"setWordCount", ["int"]⟩),
         ("pageCountChanged", ⟨"setPageCount", ["int"]⟩),
         ("wordsPerMinuteChanged", ⟨"setWordsPerMinute", ["int"]⟩),
         ("writingTimeChanged", ⟨"setWritingTime", ["unsigned long"]⟩),
         ("idleTimePercentageChanged", ⟨"setIdleTime", ["int"]⟩)]
    ∧ (⟨"setWritingTime", ["unsigned long"]⟩ : Sig) ∉ SessionStatisticsWidget_slots
    ∧ (⟨"setWritingTime", ["int"]⟩ : Sig) ∈ SessionStatisticsWidget_slots
    ∧ (sessionDisplayConnections mainWindowConnections).map slotDeclared
      = [true, true, true, false, true]
    ∧ emitSignal mainWindowConnections .sessionStats ⟨"writingTimeChanged", ["unsigned long"]⟩
        [.ulong 5] = []
    ∧ emitSignal mainWindowConnections .sessionStats ⟨"writingTimeChanged", ["int"]⟩
        [.int 5] = [] := by
  decide

/-- C4 (the claim fails as stated): no connect statement carries a two-part
`lixReadingEaseChanged` payload; the signal wired by `buildSidebar` has exactly one
parameter. -/
theorem lix_payload_is_not_score_and_band :
    ¬ (∃ c ∈ mainWindowConnections, c.signal.name = "lixReadingEaseChanged"
        ∧ c.signal.params.length = 2) := by
  decide

/-- C4 (amended): the `lixReadingEaseChanged` signal wired from `documentStats` to
the document statistics widget carries the numeric score alone: its signature is
`lixReadingEaseChanged(int)`, it is connected once, to `setLixReadingEase(int)`, and
an emission with score `v` invokes exactly `setLixReadingEase(v)`. -/
theorem lix_payload_is_score_only :
    (mainWindowConnections.filter (fun c => decide (c.signal.name = "lixReadingEaseChanged")))
      = [⟨.documentStats, ⟨"lixReadingEaseChanged", ["int"]⟩, .documentStatsWidget,
          ⟨"setLixReadingEase", ["int"]⟩⟩]
    ∧ (∀ v : Int, emitSignal mainWindowConnections .documentStats
          ⟨"lixReadingEaseChanged", ["int"]⟩ [.int v]
        = [⟨.documentStatsWidget, ⟨"setLixReadingEase", ["int"]⟩, [.int v]⟩]) := by
  exact ⟨by decide, fun v => rfl⟩

/-- C5: each document metric is individually observable.  For each of the nine
metrics, exactly one established connection leads from `documentStats.<metric>Changed`
to the document statistics widget, its slot is `set<Metric>(int)` (the setter of the
same name), the nine setters are pairwise distinct, and an emission of
`<metric>Changed(v)` invokes on the widget exactly that setter with `v`. -/
theorem document_metrics_individually_observable :
    (∀ m ∈ documentMetricNames, documentMetricConnections mainWindowConnections m
        = [⟨.documentStats, ⟨m ++ "Changed", ["int"]⟩, .documentStatsWidget,
            ⟨"set" ++ m.capitalize, ["int"]⟩⟩])
    ∧ (documentMetricNames.map (fun m => "set" ++ m.capitalize)).Nodup
    ∧ (documentMetricNames.flatMap (fun m =>
          (documentMetricConnections mainWindowConnections m).map (fun c => c.slot))).Nodup
    ∧ (mainWindowConnections.filter (fun c => decide (c.receiver = .documentStatsWidget))).length = 9
    ∧ (∀ m ∈ documentMetricNames, ∀ v : Int,
        callsTo .documentStatsWidget
          (emitSignal mainWindowConnections .documentStats ⟨m ++ "Changed", ["int"]⟩ [.int v])
        = [⟨.documentStatsWidget, ⟨"set" ++ m.capitalize, ["int"]⟩, [.int v]⟩]) := by
  refine ⟨by decide, by decide, by decide, by decide, ?_⟩
  intro m hm v
  simp only [documentMetricNames, List.mem_cons, List.mem_singleton, List.not_mem_nil,
    or_false] at hm
  rcases hm with h | h | h | h | h | h | h | h | h <;> subst h <;> rfl

/-- C6: selection events reach the document statistics engine unchanged.  The
editor's `textSelected(QString,int,int)` is connected once, to
`documentStats.onTextSelected(QString,int,int)`, and `textDeselected()` once, to
`documentStats.onTextDeselected()`; an emission of `textSelected(text, start, end)`
invokes exactly `onTextSelected(text, start, end)`, an emission of `textDeselected()`
invokes exactly `onTextDeselected()`, and neither invokes the other handler. -/
theorem selection_events_reach_documentStats :
    (mainWindowConnections.filter (fun c => decide (c.sender = .editor)
        && decide (c.signal.name = "textSelected")))
      = [⟨.editor, ⟨"textSelected", ["QString", "int", "int"]⟩, .documentStats,
          ⟨"onTextSelected", ["QString", "int", "int"]⟩⟩]
    ∧ (mainWindowConnections.filter (fun c => decide (c.sender = .editor)
        && decide (c.signal.name = "textDeselected")))
      = [⟨.editor, ⟨"textDeselected", []⟩, .documentStats, ⟨"onTextDeselected", []⟩⟩]
    ∧ (∀ (text : String) (selStart selEnd : Int),
        emitSignal mainWindowConnections .editor ⟨"textSelected", ["QString", "int", "int"]⟩
          [.str text, .int selStart, .int selEnd]
        = [⟨.documentStats, ⟨"onTextSelected", ["QString", "int", "int"]⟩,
            [.str text, .int selStart, .int selEnd]⟩])
    ∧ emitSignal mainWindowConnections .editor ⟨"textDeselected", []⟩ []
        = [⟨.documentStats, ⟨"onTextDeselected", []⟩, []⟩] := by
  exact ⟨by decide, by decide, fun _ _ _ => rfl, by decide⟩

/-- A text with a word has a sentence: either a break was found, or the whole text
is the trailing partial sentence. -/
theorem sentenceCount_pos (K : CharClasses) (t : List Char) (h : 0 < wordCount K t) :
    0 < sentenceCount K t := by
  unfold sentenceCount trailingPartial
  cases hb : (sentenceBreaks K t).getLast? with
  | none =>
    have hne : (words K t).isEmpty = false := by
      cases hw : words K t with
      | nil => simp [wordCount, hw] at h
      | cons w ws => rfl
    simp [hne]
  | some i =>
    have : sentenceBreaks K t ≠ [] := by
      intro hnil
      simp [hnil] at hb
    have := List.length_pos.mpr this
    omega

/-- There are at most as many complex words as words. -/
theorem complexWordCount_le (K : CharClasses) (t : List Char) :
    complexWordCount K t ≤ wordCount K t :=
  List.length_filter_le _ _

/-- With a valid configuration the analysis meets no division by zero, and every
field of the result is the value its rule prescribes. -/
theorem analyze_eq_some (K : CharClasses) (cfg : Config) (s : DocumentSnapshot)
    (h : cfg.valid) :
    analyze K cfg s = some
      { wordCount := wordCount K s.analyzedRange
        characterCount := characterCount s.analyzedRange
        sentenceCount := sentenceCount K s.analyzedRange
        paragraphCount := paragraphCount K s.analyzedRange
        pageCount := ⌈(wordCount K s.analyzedRange : ℚ) / (cfg.wordsPerPage : ℚ)⌉₊
        complexWordCount := complexWordCount K s.analyzedRange
        readingTimeMinutes :=
          if wordCount K s.analyzedRange = 0 then 0
          else max 1 ⌈(wordCount K s.analyzedRange : ℚ) / (cfg.averageReadingWpm : ℚ)⌉₊
        lixScore :=
          if wordCount K s.analyzedRange = 0 then 0
          else (wordCount K s.analyzedRange : ℚ) / (sentenceCount K s.analyzedRange : ℚ)
            + 100 * ((longWordCount K s.analyzedRange : ℚ) / (wordCount K s.analyzedRange : ℚ))
        readabilityIndex :=
          if wordCount K s.analyzedRange = 0 then 0
          else (4 / 10 : ℚ) * ((wordCount K s.analyzedRange : ℚ) / (sentenceCount K s.analyzedRange : ℚ)
            + 100 * ((complexWordCount K s.analyzedRange : ℚ) / (wordCount K s.analyzedRange : ℚ))) } := by
  obtain ⟨hr, hp⟩ := h
  by_cases hwc : wordCount K s.analyzedRange = 0
  · simp [analyze, pageCount, readingTimeMinutes, lixScore, readabilityIndex, hwc]
  · have hsc : sentenceCount K s.analyzedRange ≠ 0 :=
      Nat.pos_iff_ne_zero.mp (sentenceCount_pos K _ (Nat.pos_of_ne_zero hwc))
    have hr0 : cfg.averageReadingWpm ≠ 0 := Nat.pos_iff_ne_zero.mp hr
    have hp0 : cfg.wordsPerPage ≠ 0 := Nat.pos_iff_ne_zero.mp hp
    simp [analyze, pageCount, readingTimeMinutes, lixScore, readabilityIndex, checkedRatio,
      checkedCeilDiv, hwc, hsc, hr0, hp0]

/-- The words of `wordsDocument n` are its `n` one-letter words. -/
theorem words_wordsDocument (n : Nat) :
    words asciiClasses (wordsDocument n) = List.replicate n ['a'] := by
  induction n with
  | zero => rfl
  | succ n ih =>
    have step : words asciiClasses (wordsDocument (n + 1))
        = ['a'] :: words asciiClasses (wordsDocument n) := rfl
    rw [step, ih]
    rfl

/-- The document `wordsDocument n` has `n` words. -/
theorem wordCount_wordsDocument (n : Nat) :
    wordCount asciiClasses (wordsDocument n) = n := by
  simp [wordCount, words_wordsDocument]

/-- The document `wordsDocument n` is a single line. -/
theorem splitLines_wordsDocument (n : Nat) :
    splitLines (wordsDocument n) = [wordsDocument n] := by
  induction n with
  | zero => rfl
  | succ n ih =>
    have step : splitLines (wordsDocument (n + 1))
        = (match splitLines (wordsDocument n) with
            | [] => [['a', ' ']]
            | l :: ls => ('a' :: ' ' :: l) :: ls) := by
      show splitLines ('a' :: ' ' :: wordsDocument n) = _
      cases hsl : splitLines (wordsDocument n) with
      | nil => simp [splitLines, hsl]
      | cons l ls => simp [splitLines, hsl]
    rw [step, ih]
    rfl

/-- A non-empty `wordsDocument` is a single paragraph. -/
theorem paragraphCount_wordsDocument (n : Nat) (hn : 0 < n) :
    paragraphCount asciiClasses (wordsDocument n) = 1 := by
  rw [paragraphCount, splitLines_wordsDocument]
  cases n with
  | zero => omega
  | succ k => rfl

/-- The analysis of a non-empty `wordsDocument` reports a single paragraph. -/
theorem analyze_wordsDocument_paragraphCount (cfg : Config) (h : cfg.valid) (n : Nat)
    (hn : 0 < n) :
    ∃ m, analyze asciiClasses cfg { text := wordsDocument n, selection := none } = some m
      ∧ m.paragraphCount = 1 :=
  ⟨_, analyze_eq_some asciiClasses cfg _ h, paragraphCount_wordsDocument n hn⟩

/-- C7: for every text, `analyze(t).complexWordCount ≤ analyze(t).wordCount`.  The
complex words are a sub-collection of the words of the analyzed range, and with a
valid configuration `analyze` returns a `Metrics` value whose two fields are these
counts. -/
theorem analyze_complexWordCount_le_wordCount (K : CharClasses) (cfg : Config)
    (s : DocumentSnapshot) (h : cfg.valid) :
    ∃ m, analyze K cfg s = some m
      ∧ m.wordCount = wordCount K s.analyzedRange
      ∧ m.complexWordCount = complexWordCount K s.analyzedRange
      ∧ m.complexWordCount ≤ m.wordCount :=
  ⟨_, analyze_eq_some K cfg s h, rfl, rfl, complexWordCount_le K _⟩

/-- C7, at the example configuration and a two-sentence document. -/
theorem analyze_complexWordCount_le_wordCount_witness :
    exampleConfig.valid
    ∧ ∃ m, analyze asciiClasses exampleConfig
        (wholeDocument "A beautiful readability example. It is short.") = some m
      ∧ m.wordCount = wordCount asciiClasses
          (wholeDocument "A beautiful readability example. It is short.").analyzedRange
      ∧ m.complexWordCount = complexWordCount asciiClasses
          (wholeDocument "A beautiful readability example. It is short.").analyzedRange
      ∧ m.complexWordCount ≤ m.wordCount :=
  ⟨by decide, analyze_complexWordCount_le_wordCount asciiClasses exampleConfig
    (wholeDocument "A beautiful readability example. It is short.") (by decide)⟩

/-- C8: for the empty document (whatever the selection and the configuration)
`analyze` meets no division by zero and returns the `Metrics` value with every field
`0`; and for every snapshot whose analyzed range has no word, `analyze` returns a
value in which the page count, the complex-word count, the reading time, the LIX
score and the readability index are all `0`. -/
theorem analyze_zero_when_no_words (K : CharClasses) (cfg : Config) :
    (∀ sel, analyze K cfg { text := [], selection := sel }
        = some
          { wordCount := 0, characterCount := 0, sentenceCount := 0, paragraphCount := 0,
            pageCount := 0, complexWordCount := 0, readingTimeMinutes := 0, lixScore := 0,
            readabilityIndex := 0 })
    ∧ (∀ s : DocumentSnapshot, wordCount K s.analyzedRange = 0 →
        ∃ m, analyze K cfg s = some m ∧ m.wordCount = 0 ∧ m.pageCount = 0
          ∧ m.complexWordCount = 0 ∧ m.readingTimeMinutes = 0 ∧ m.lixScore = 0
          ∧ m.readabilityIndex = 0) := by
  constructor
  · intro sel
    have hrange : (DocumentSnapshot.mk [] sel).analyzedRange = [] := by
      cases sel with
      | none => rfl
      | some p => simp [DocumentSnapshot.analyzedRange]
    simp only [analyze, hrange]
    rfl
  · intro s hwc
    have hcw : complexWordCount K s.analyzedRange = 0 :=
      Nat.le_zero.mp (hwc ▸ complexWordCount_le K s.analyzedRange)
    have hm : analyze K cfg s = some
        { wordCount := 0, characterCount := characterCount s.analyzedRange,
          sentenceCount := sentenceCount K s.analyzedRange,
          paragraphCount := paragraphCount K s.analyzedRange,
          pageCount := 0, complexWordCount := 0, readingTimeMinutes := 0, lixScore := 0,
          readabilityIndex := 0 } := by
      simp [analyze, pageCount, readingTimeMinutes, lixScore, readabilityIndex, hwc, hcw]
    exact ⟨_, hm, rfl, rfl, rfl, rfl, rfl, rfl⟩

/-- C8, at a document of punctuation only (no word, but characters and a sentence
break) and a configuration whose constants are zero. -/
theorem analyze_zero_when_no_words_witness :
    wordCount asciiClasses (wholeDocument "?! ...").analyzedRange = 0
    ∧ ∃ m, analyze asciiClasses
          { averageReadingWpm := 0, wordsPerPage := 0, debounceIntervalMs := 0,
            wpmWindowMinutes := 0 } (wholeDocument "?! ...") = some m
        ∧ m.wordCount = 0 ∧ m.pageCount = 0 ∧ m.complexWordCount = 0
        ∧ m.readingTimeMinutes = 0 ∧ m.lixScore = 0 ∧ m.readabilityIndex = 0 :=
  ⟨by decide, (analyze_zero_when_no_words asciiClasses _).2 (wholeDocument "?! ...") (by decide)⟩

/-- C9: with a valid configuration, `pageCount` equals `ceil(wordCount /
wordsPerPage)` for every word count and is `0` when `wordCount` is `0`; with
`wordsPerPage = 450`, 450 words give `pageCount = 1` and 451 words give
`pageCount = 2`. -/
theorem analyze_pageCount_eq_ceil (K : CharClasses) (cfg : Config) (s : DocumentSnapshot)
    (h : cfg.valid) :
    ∃ m, analyze K cfg s = some m
      ∧ m.wordCount = wordCount K s.analyzedRange
      ∧ m.pageCount = ⌈(m.wordCount : ℚ) / (cfg.wordsPerPage : ℚ)⌉₊
      ∧ (m.wordCount = 0 → m.pageCount = 0)
      ∧ (cfg.wordsPerPage = 450 → m.wordCount = 450 → m.pageCount = 1)
      ∧ (cfg.wordsPerPage = 450 → m.wordCount = 451 → m.pageCount = 2) := by
  refine ⟨_, analyze_eq_some K cfg s h, rfl, rfl, ?_, ?_, ?_⟩
  · intro h0
    simp only at h0 ⊢
    simp [h0]
  · intro hp hw
    simp only at hw ⊢
    rw [hp, hw, Nat.ceil_eq_iff (by norm_num)]
    norm_num
  · intro hp hw
    simp only at hw ⊢
    rw [hp, hw, Nat.ceil_eq_iff (by norm_num)]
    norm_num

/-- C9, at the single-paragraph documents of 450 and of 451 words with 450 words
per page: one page and two pages. -/
theorem analyze_pageCount_eq_ceil_witness :
    exampleConfig.valid
    ∧ (∃ m, analyze asciiClasses exampleConfig { text := wordsDocument 450, selection := none }
          = some m ∧ m.wordCount = 450 ∧ m.paragraphCount = 1 ∧ m.pageCount = 1)
    ∧ (∃ m, analyze asciiClasses exampleConfig { text := wordsDocument 451, selection := none }
          = some m ∧ m.wordCount = 451 ∧ m.paragraphCount = 1 ∧ m.pageCount = 2) := by
  refine ⟨by decide, ?_, ?_⟩
  · obtain ⟨m, hm, hwc, _, _, h450, _⟩ := analyze_pageCount_eq_ceil asciiClasses exampleConfig
      { text := wordsDocument 450, selection := none } (by decide)
    have hw : m.wordCount = 450 := hwc.trans (wordCount_wordsDocument 450)
    refine ⟨m, hm, hw, ?_, h450 rfl hw⟩
    obtain ⟨m2, hm2, hpc⟩ := analyze_wordsDocument_paragraphCount exampleConfig (by decide) 450
      (by norm_num)
    rw [Option.some.inj (hm.symm.trans hm2)]
    exact hpc
  · obtain ⟨m, hm, hwc, _, _, _, h451⟩ := analyze_pageCount_eq_ceil asciiClasses exampleConfig
      { text := wordsDocument 451, selection := none } (by decide)
    have hw : m.wordCount = 451 := hwc.trans (wordCount_wordsDocument 451)
    refine ⟨m, hm, hw, ?_, h451 rfl hw⟩
    obtain ⟨m2, hm2, hpc⟩ := analyze_wordsDocument_paragraphCount exampleConfig (by decide) 451
      (by norm_num)
    rw [Option.some.inj (hm.symm.trans hm2)]
    exact hpc

/-- C10: with a valid configuration, for every text with `wordCount > 0` the
sentence count is positive and `lixScore = (wordCount / sentenceCount) + 100 *
(longWordCount / wordCount)`, where `longWordCount` counts the words longer than 6
characters; and `lixScore` is `0` when `wordCount` is `0`. -/
theorem analyze_lixScore_eq (K : CharClasses) (cfg : Config) (s : DocumentSnapshot)
    (h : cfg.valid) :
    ∃ m, analyze K cfg s = some m
      ∧ m.wordCount = wordCount K s.analyzedRange
      ∧ m.sentenceCount = sentenceCount K s.analyzedRange
      ∧ (0 < m.wordCount → 0 < m.sentenceCount
          ∧ m.lixScore = (m.wordCount : ℚ) / (m.sentenceCount : ℚ)
              + 100 * ((longWordCount K s.analyzedRange : ℚ) / (m.wordCount : ℚ)))
      ∧ (m.wordCount = 0 → m.lixScore = 0) := by
  refine ⟨_, analyze_eq_some K cfg s h, rfl, rfl, ?_, ?_⟩
  · intro hpos
    simp only at hpos ⊢
    exact ⟨sentenceCount_pos K _ hpos, by rw [if_neg (Nat.pos_iff_ne_zero.mp hpos)]⟩
  · intro h0
    simp only at h0 ⊢
    rw [if_pos h0]

/-- C10, at a document of two sentences and seven words, three of them long: the
LIX score is `7 / 2 + 100 * (3 / 7)`. -/
theorem analyze_lixScore_eq_witness :
    exampleConfig.valid
    ∧ ∃ m, analyze asciiClasses exampleConfig
          (wholeDocument "A beautiful readability example. It is short.") = some m
        ∧ m.wordCount = 7 ∧ m.sentenceCount = 2
        ∧ m.lixScore = (7 : ℚ) / 2 + 100 * ((3 : ℚ) / 7) := by
  refine ⟨by decide, ?_⟩
  obtain ⟨m, hm, hwc, hsc, hlix, _⟩ := analyze_lixScore_eq asciiClasses exampleConfig
    (wholeDocument "A beautiful readability example. It is short.") (by decide)
  have hw : m.wordCount = 7 := hwc.trans (by decide)
  have hs : m.sentenceCount = 2 := hsc.trans (by decide)
  have hl : longWordCount asciiClasses
      (wholeDocument "A beautiful readability example. It is short.").analyzedRange = 3 := by
    decide
  refine ⟨m, hm, hw, hs, ?_⟩
  have := (hlix (by omega)).2
  rw [this, hw, hs, hl]
  norm_num

/-- A text without a sentence terminator has no sentence break. -/
theorem sentenceBreaks_eq_nil (K : CharClasses) (t : List Char)
    (h : ∀ c ∈ t, isTerminator c = false) : sentenceBreaks K t = [] := by
  unfold sentenceBreaks
  rw [List.filter_eq_nil_iff]
  intro i _
  have hterm : (t[i]?.map isTerminator).getD false = false := by
    cases hi : t[i]? with
    | none => rfl
    | some c =>
      have hc : c ∈ t := List.getElem?_mem hi
      simp [h c hc]
  simp [isSentenceBreak, hterm]

/-- A text with a word and without a sentence terminator is one sentence. -/
theorem sentenceCount_eq_one_of_no_terminator (K : CharClasses) (t : List Char)
    (hw : 0 < wordCount K t) (h : ∀ c ∈ t, isTerminator c = false) :
    sentenceCount K t = 1 := by
  have hb := sentenceBreaks_eq_nil K t h
  have hne : (words K t).isEmpty = false := by
    cases hwords : words K t with
    | nil => simp [wordCount, hwords] at hw
    | cons w ws => rfl
  simp [sentenceCount, trailingPartial, hb, hne]

/-- C11: with a valid configuration, for every text `sentenceCount ≥ 1` whenever
`wordCount > 0`, and a text with a word but without `.`, `?` or `!` has
`sentenceCount = 1` (the trailing partial sentence counts as one). -/
theorem analyze_sentenceCount_ge_one (K : CharClasses) (cfg : Config) (s : DocumentSnapshot)
    (h : cfg.valid) :
    ∃ m, analyze K cfg s = some m
      ∧ m.wordCount = wordCount K s.analyzedRange
      ∧ m.sentenceCount = sentenceCount K s.analyzedRange
      ∧ m.paragraphCount = paragraphCount K s.analyzedRange
      ∧ (0 < m.wordCount → 1 ≤ m.sentenceCount)
      ∧ (0 < m.wordCount → (∀ c ∈ s.analyzedRange, isTerminator c = false) →
          m.sentenceCount = 1) :=
  ⟨_, analyze_eq_some K cfg s h, rfl, rfl, rfl, fun hw => sentenceCount_pos K _ hw,
    fun hw hno => sentenceCount_eq_one_of_no_terminator K _ hw hno⟩

/-- C11, at the example texts: "One. Two. Three." has 3 sentences and 3 words,
"Hello world." has 2 words, 1 sentence and 1 paragraph, and "Hello world", which has
no terminator, has 2 words and 1 sentence. -/
theorem analyze_sentenceCount_ge_one_witness :
    exampleConfig.valid
    ∧ (∃ m, analyze asciiClasses exampleConfig (wholeDocument "One. Two. Three.") = some m
        ∧ m.sentenceCount = 3 ∧ m.wordCount = 3)
    ∧ (∃ m, analyze asciiClasses exampleConfig (wholeDocument "Hello world.") = some m
        ∧ m.wordCount = 2 ∧ m.sentenceCount = 1 ∧ m.paragraphCount = 1)
    ∧ (∃ m, analyze asciiClasses exampleConfig (wholeDocument "Hello world") = some m
        ∧ m.wordCount = 2 ∧ m.sentenceCount = 1) := by
  refine ⟨by decide, ?_, ?_, ?_⟩
  · obtain ⟨m, hm, hw, hs, _, _, _⟩ := analyze_sentenceCount_ge_one asciiClasses exampleConfig
      (wholeDocument "One. Two. Three.") (by decide)
    exact ⟨m, hm, hs.trans (by decide), hw.trans (by decide)⟩
  · obtain ⟨m, hm, hw, hs, hp, _, _⟩ := analyze_sentenceCount_ge_one asciiClasses exampleConfig
      (wholeDocument "Hello world.") (by decide)
    exact ⟨m, hm, hw.trans (by decide), hs.trans (by decide), hp.trans (by decide)⟩
  · obtain ⟨m, hm, hw, _, _, _, hone⟩ := analyze_sentenceCount_ge_one asciiClasses exampleConfig
      (wholeDocument "Hello world") (by decide)
    have hw2 : m.wordCount = 2 := hw.trans (by decide)
    exact ⟨m, hm, hw2, hone (by omega) (by decide)⟩

/-- The recorded delta is `max(0, new - previous)` in the integers. -/
theorem wordsWrittenDelta_cast (previousWordCount newWordCount : Nat) :
    ((wordsWrittenDelta previousWordCount newWordCount : Nat) : ℤ)
      = max 0 ((newWordCount : ℤ) - (previousWordCount : ℤ)) := by
  unfold wordsWrittenDelta
  exact Int.toNat_of_nonneg (le_max_left _ _)

/-- A word count that does not grow contributes no words written. -/
theorem wordsWrittenDelta_eq_zero (previousWordCount newWordCount : Nat)
    (h : newWordCount ≤ previousWordCount) :
    wordsWrittenDelta previousWordCount newWordCount = 0 := by
  unfold wordsWrittenDelta
  have : (newWordCount : ℤ) - (previousWordCount : ℤ) ≤ 0 := by omega
  rw [max_eq_left this]
  rfl

/-- C12: on every word-count update the tracker records `delta = max(0,
newWordCount - previousWordCount)` as words written, sets `previousWordCount` to the
new value (also when the difference is negative), and leaves the other fields, among
them the activity state and both time accumulators, unchanged; a decrease contributes
`0`.  In the scenario of section 8 the final drop `25 → 20` records `0` and the
writing time stays at the three seconds ticked while Typing. -/
theorem wordCount_update_records_nonnegative_delta (cfg : Config) (s : SessionState)
    (timestamp newWordCount : Nat) :
    (sessionStep cfg s (.wordCountChanged timestamp newWordCount)).window
        = s.window ++ [(timestamp, wordsWrittenDelta s.previousWordCount newWordCount)]
    ∧ ((wordsWrittenDelta s.previousWordCount newWordCount : Nat) : ℤ)
        = max 0 ((newWordCount : ℤ) - (s.previousWordCount : ℤ))
    ∧ (newWordCount ≤ s.previousWordCount →
        wordsWrittenDelta s.previousWordCount newWordCount = 0)
    ∧ (sessionStep cfg s (.wordCountChanged timestamp newWordCount)).previousWordCount
        = newWordCount
    ∧ (sessionStep cfg s (.wordCountChanged timestamp newWordCount)).activityState
        = s.activityState
    ∧ (sessionStep cfg s (.wordCountChanged timestamp newWordCount)).accumulatedWritingMillis
        = s.accumulatedWritingMillis
    ∧ (sessionStep cfg s (.wordCountChanged timestamp newWordCount)).accumulatedIdleMillis
        = s.accumulatedIdleMillis
    ∧ (sessionStep cfg s (.wordCountChanged timestamp newWordCount)).baselineWordCount
        = s.baselineWordCount
    ∧ wordsWrittenDelta 25 20 = 0
    ∧ (sessionRun exampleConfig (SessionState.initial 0) sessionScenario).window
        = [(500, 10), (1500, 0), (2500, 15), (3500, 0)]
    ∧ (sessionRun exampleConfig (SessionState.initial 0) sessionScenario).previousWordCount = 20
    ∧ (sessionRun exampleConfig (SessionState.initial 0)
        sessionScenario).accumulatedWritingMillis = 3000 := by
  refine ⟨rfl, wordsWrittenDelta_cast _ _, wordsWrittenDelta_eq_zero _ _, rfl, rfl, rfl, rfl,
    rfl, by decide, by decide, by decide, by decide⟩

/-- One event other than a reset: the two accumulators grow by the ticked time,
the writing time by the ticked time taken while Typing. -/
theorem sessionStep_accounting (cfg : Config) (s : SessionState) (e : SessionEvent)
    (he : e.isReset = false) :
    (sessionStep cfg s e).accumulatedWritingMillis + (sessionStep cfg s e).accumulatedIdleMillis
        = s.accumulatedWritingMillis + s.accumulatedIdleMillis + totalTickedMillis [e]
    ∧ (sessionStep cfg s e).accumulatedWritingMillis
        = s.accumulatedWritingMillis + typingTickedMillis cfg s [e]
    ∧ s.accumulatedIdleMillis ≤ (sessionStep cfg s e).accumulatedIdleMillis := by
  cases e with
  | typingResumed ts => simp [sessionStep, onTypingResumed, totalTickedMillis, typingTickedMillis]
  | typingPaused ts => simp [sessionStep, onTypingPaused, totalTickedMillis, typingTickedMillis]
  | wordCountChanged ts n =>
    simp [sessionStep, onDocumentWordCountChanged, totalTickedMillis, typingTickedMillis]
  | tick ts d =>
    cases ha : s.activityState <;>
      simp [sessionStep, onTick, totalTickedMillis, typingTickedMillis, ha] <;> omega
  | reset n => simp [SessionEvent.isReset] at he

/-- The total ticked time of a sequence, split at its first event. -/
theorem totalTickedMillis_cons (e : SessionEvent) (es : List SessionEvent) :
    totalTickedMillis (e :: es) = totalTickedMillis [e] + totalTickedMillis es := by
  cases e <;> simp [totalTickedMillis]

/-- The Typing ticked time of a sequence, split at its first event. -/
theorem typingTickedMillis_cons (cfg : Config) (s : SessionState) (e : SessionEvent)
    (es : List SessionEvent) :
    typingTickedMillis cfg s (e :: es)
      = typingTickedMillis cfg s [e] + typingTickedMillis cfg (sessionStep cfg s e) es := by
  simp [typingTickedMillis]

/-- Accounting over a sequence of events without a reset. -/
theorem sessionRun_accounting (cfg : Config) (es : List SessionEvent) :
    ∀ s : SessionState, (∀ e ∈ es, e.isReset = false) →
      (sessionRun cfg s es).accumulatedWritingMillis + (sessionRun cfg s es).accumulatedIdleMillis
          = s.accumulatedWritingMillis + s.accumulatedIdleMillis + totalTickedMillis es
      ∧ (sessionRun cfg s es).accumulatedWritingMillis
          = s.accumulatedWritingMillis + typingTickedMillis cfg s es
      ∧ s.accumulatedIdleMillis ≤ (sessionRun cfg s es).accumulatedIdleMillis := by
  induction es with
  | nil =>
    intro s _
    simp [sessionRun, totalTickedMillis, typingTickedMillis]
  | cons e es ih =>
    intro s hes
    have he : e.isReset = false := hes e (List.mem_cons_self _ _)
    obtain ⟨h1, h2, h3⟩ := sessionStep_accounting cfg s e he
    obtain ⟨i1, i2, i3⟩ := ih (sessionStep cfg s e) (fun x hx => hes x (List.mem_cons_of_mem _ hx))
    rw [totalTickedMillis_cons, typingTickedMillis_cons]
    simp only [sessionRun]
    refine ⟨by omega, by omega, by omega⟩

/-- C13: per-tick accounting keeps the session invariant.  A tick adds the elapsed
interval to `accumulatedWritingMillis` when the state is Typing and to
`accumulatedIdleMillis` otherwise; after any sequence of events without a reset the
two accumulators have grown together by exactly the total ticked time, the writing
time by exactly the time of the ticks taken while in Typing, and neither accumulator
has decreased; started from a fresh (initial or just reset) state, their sum is the
total ticked time. -/
theorem session_accounting_invariant (cfg : Config) (s : SessionState)
    (es : List SessionEvent) (h : ∀ e ∈ es, e.isReset = false) :
    (∀ (r : SessionState) (timestamp elapsedMillis : Nat),
        (r.activityState = .Typing →
          (sessionStep cfg r (.tick timestamp elapsedMillis)).accumulatedWritingMillis
              = r.accumulatedWritingMillis + elapsedMillis
          ∧ (sessionStep cfg r (.tick timestamp elapsedMillis)).accumulatedIdleMillis
              = r.accumulatedIdleMillis)
        ∧ (r.activityState = .Idle →
          (sessionStep cfg r (.tick timestamp elapsedMillis)).accumulatedIdleMillis
              = r.accumulatedIdleMillis + elapsedMillis
          ∧ (sessionStep cfg r (.tick timestamp elapsedMillis)).accumulatedWritingMillis
              = r.accumulatedWritingMillis))
    ∧ (sessionRun cfg s es).accumulatedWritingMillis + (sessionRun cfg s es).accumulatedIdleMillis
        = s.accumulatedWritingMillis + s.accumulatedIdleMillis + totalTickedMillis es
    ∧ (sessionRun cfg s es).accumulatedWritingMillis
        = s.accumulatedWritingMillis + typingTickedMillis cfg s es
    ∧ s.accumulatedWritingMillis ≤ (sessionRun cfg s es).accumulatedWritingMillis
    ∧ s.accumulatedIdleMillis ≤ (sessionRun cfg s es).accumulatedIdleMillis
    ∧ (∀ n m : Nat,
        (sessionRun cfg ((s.reset n)) es).accumulatedWritingMillis
            + (sessionRun cfg (s.reset n) es).accumulatedIdleMillis = totalTickedMillis es
        ∧ (sessionRun cfg (SessionState.initial m) es).accumulatedWritingMillis
            + (sessionRun cfg (SessionState.initial m) es).accumulatedIdleMillis
            = totalTickedMillis es) := by
  obtain ⟨h1, h2, h3⟩ := sessionRun_accounting cfg es s h
  refine ⟨?_, h1, h2, by omega, h3, ?_⟩
  · intro r ts d
    constructor
    · intro hr
      simp [sessionStep, onTick, hr]
    · intro hr
      simp [sessionStep, onTick, hr]
  · intro n m
    obtain ⟨r1, _, _⟩ := sessionRun_accounting cfg es (s.reset n) h
    obtain ⟨r2, _, _⟩ := sessionRun_accounting cfg es (SessionState.initial m) h
    constructor
    · rw [r1]
      simp [SessionState.reset]
    · rw [r2]
      simp [SessionState.initial]

/-- C13, at the scenario of section 8 followed by two ticks while Idle: three seconds
of writing, one and a half of idling, four and a half ticked. -/
theorem session_accounting_invariant_witness :
    (∀ e ∈ sessionScenario ++ [.tick 4000 1000, .tick 4500 500], e.isReset = false)
    ∧ totalTickedMillis (sessionScenario ++ [.tick 4000 1000, .tick 4500 500]) = 4500
    ∧ (sessionRun exampleConfig (SessionState.initial 0)
        (sessionScenario ++ [.tick 4000 1000, .tick 4500 500])).accumulatedWritingMillis = 3000
    ∧ (sessionRun exampleConfig (SessionState.initial 0)
        (sessionScenario ++ [.tick 4000 1000, .tick 4500 500])).accumulatedIdleMillis = 1500 := by
  have hno : ∀ e ∈ sessionScenario ++ [.tick 4000 1000, .tick 4500 500],
      e.isReset = false := by decide
  obtain ⟨_, _, hwriting, _, _, hfresh⟩ := session_accounting_invariant exampleConfig
    (SessionState.initial 0) (sessionScenario ++ [.tick 4000 1000, .tick 4500 500]) hno
  have ht : totalTickedMillis (sessionScenario ++ [.tick 4000 1000, .tick 4500 500]) = 4500 := by
    decide
  have hty : typingTickedMillis exampleConfig (SessionState.initial 0)
      (sessionScenario ++ [.tick 4000 1000, .tick 4500 500]) = 3000 := by decide
  have hsum := (hfresh 0 0).2
  rw [ht] at hsum
  have hw : (sessionRun exampleConfig (SessionState.initial 0)
      (sessionScenario ++ [.tick 4000 1000, .tick 4500 500])).accumulatedWritingMillis = 3000 := by
    rw [hwriting, hty]
    rfl
  exact ⟨hno, ht, hw, by omega⟩

/-- An event that is neither an activity signal nor a reset keeps the activity state. -/
theorem sessionStep_activityState (cfg : Config) (s : SessionState) (e : SessionEvent)
    (hs : e.isActivitySignal = false) (hr : e.isReset = false) :
    (sessionStep cfg s e).activityState = s.activityState := by
  cases e with
  | typingResumed ts => simp [SessionEvent.isActivitySignal] at hs
  | typingPaused ts => simp [SessionEvent.isActivitySignal] at hs
  | wordCountChanged ts n => rfl
  | tick ts d => cases ha : s.activityState <;> simp [sessionStep, onTick, ha]
  | reset n => simp [SessionEvent.isReset] at hr

/-- A sequence of ticks and word-count updates keeps the activity state. -/
theorem sessionRun_activityState (cfg : Config) (es : List SessionEvent) :
    ∀ s : SessionState, (∀ e ∈ es, e.isActivitySignal = false ∧ e.isReset = false) →
      (sessionRun cfg s es).activityState = s.activityState := by
  induction es with
  | nil => intro s _; rfl
  | cons e es ih =>
    intro s hes
    obtain ⟨h1, h2⟩ := hes e (List.mem_cons_self _ _)
    simp only [sessionRun]
    rw [ih _ (fun x hx => hes x (List.mem_cons_of_mem _ hx)),
      sessionStep_activityState cfg s e h1 h2]

/-- C14: the session tracker is a two-state machine with initial state Idle.
"Typing resumed" takes Idle to Typing and "typing paused" takes Typing to Idle; a tick
or a word-count update never changes the activity state, nor does any sequence of
them; the only events that can change it are the two activity signals and the
explicit `reset()`, which sets it to Idle. -/
theorem session_activity_state_machine (cfg : Config) :
    (∀ n, (SessionState.initial n).activityState = .Idle)
    ∧ (∀ a : ActivityState, a = .Idle ∨ a = .Typing)
    ∧ (∀ (s : SessionState) (timestamp : Nat), s.activityState = .Idle →
        (sessionStep cfg s (.typingResumed timestamp)).activityState = .Typing)
    ∧ (∀ (s : SessionState) (timestamp : Nat), s.activityState = .Typing →
        (sessionStep cfg s (.typingPaused timestamp)).activityState = .Idle)
    ∧ (∀ (s : SessionState) (timestamp elapsedMillis : Nat),
        (sessionStep cfg s (.tick timestamp elapsedMillis)).activityState = s.activityState)
    ∧ (∀ (s : SessionState) (timestamp newWordCount : Nat),
        (sessionStep cfg s (.wordCountChanged timestamp newWordCount)).activityState
          = s.activityState)
    ∧ (∀ (s : SessionState) (e : SessionEvent),
        (sessionStep cfg s e).activityState ≠ s.activityState →
          e.isActivitySignal = true ∨ e.isReset = true)
    ∧ (∀ (s : SessionState) (es : List SessionEvent),
        (∀ e ∈ es, e.isActivitySignal = false ∧ e.isReset = false) →
          (sessionRun cfg s es).activityState = s.activityState) := by
  refine ⟨fun _ => rfl, ?_, fun _ _ _ => rfl, fun _ _ _ => rfl, ?_, fun _ _ _ => rfl, ?_,
    fun s es h => sessionRun_activityState cfg es s h⟩
  · intro a
    cases a
    · exact Or.inl rfl
    · exact Or.inr rfl
  · intro s ts d
    exact sessionStep_activityState cfg s _ rfl rfl
  · intro s e hne
    by_contra hcon
    rw [not_or] at hcon
    exact hne (sessionStep_activityState cfg s e (by simpa using hcon.1) (by simpa using hcon.2))

/-- C15: after any sequence of events, `reset()` yields `accumulatedWritingMillis =
0`, `accumulatedIdleMillis = 0`, an empty rolling window and `activityState = Idle`,
and rebases `previousWordCount` (and the baseline) to the new document's word count;
the first word-count update after the reset records `max(0, new - postResetBaseline)`,
whatever the word count before the reset was. -/
theorem session_reset_rebases (cfg : Config) (s : SessionState) (es : List SessionEvent)
    (newDocumentWordCount : Nat) :
    (sessionStep cfg (sessionRun cfg s es) (.reset newDocumentWordCount)).accumulatedWritingMillis
        = 0
    ∧ (sessionStep cfg (sessionRun cfg s es) (.reset newDocumentWordCount)).accumulatedIdleMillis
        = 0
    ∧ (sessionStep cfg (sessionRun cfg s es) (.reset newDocumentWordCount)).window = []
    ∧ (sessionStep cfg (sessionRun cfg s es) (.reset newDocumentWordCount)).activityState = .Idle
    ∧ (sessionStep cfg (sessionRun cfg s es) (.reset newDocumentWordCount)).previousWordCount
        = newDocumentWordCount
    ∧ (sessionStep cfg (sessionRun cfg s es) (.reset newDocumentWordCount)).baselineWordCount
        = newDocumentWordCount
    ∧ (∀ timestamp newWordCount : Nat,
        (sessionRun cfg s (es ++ [.reset newDocumentWordCount,
            .wordCountChanged timestamp newWordCount])).window
          = [(timestamp, wordsWrittenDelta newDocumentWordCount newWordCount)]
        ∧ ((wordsWrittenDelta newDocumentWordCount newWordCount : Nat) : ℤ)
          = max 0 ((newWordCount : ℤ) - (newDocumentWordCount : ℤ))) := by
  refine ⟨rfl, rfl, rfl, rfl, rfl, rfl, fun ts n => ⟨?_, wordsWrittenDelta_cast _ _⟩⟩
  have happ : ∀ (es1 es2 : List SessionEvent) (r : SessionState),
      sessionRun cfg r (es1 ++ es2) = sessionRun cfg (sessionRun cfg r es1) es2 := by
    intro es1
    induction es1 with
    | nil => intro es2 r; rfl
    | cons e es1 ih => intro es2 r; exact ih es2 _
  rw [happ]
  rfl

/-- C16: `idlePct` is computed without a division by zero; it equals `round(100 *
accumulatedIdleMillis / (accumulatedIdleMillis + accumulatedWritingMillis))` whenever
the denominator is positive and `0` when both accumulators are `0`; hence it is
always an integer in `[0, 100]`. -/
theorem idleTimePercentage_spec (s : SessionState) :
    ∃ p : ℤ, idleTimePercentage s = some p
      ∧ (0 < s.accumulatedIdleMillis + s.accumulatedWritingMillis →
          p = round ((100 * (s.accumulatedIdleMillis : ℚ))
                / ((s.accumulatedIdleMillis : ℚ) + (s.accumulatedWritingMillis : ℚ))))
      ∧ (s.accumulatedIdleMillis = 0 ∧ s.accumulatedWritingMillis = 0 → p = 0)
      ∧ 0 ≤ p ∧ p ≤ 100 := by
  by_cases h0 : s.accumulatedIdleMillis = 0 ∧ s.accumulatedWritingMillis = 0
  · refine ⟨0, by simp [idleTimePercentage, h0], ?_, fun _ => rfl, le_refl _, by norm_num⟩
    intro hpos
    omega
  · have hden : s.accumulatedIdleMillis + s.accumulatedWritingMillis ≠ 0 := by omega
    have hdenq : (0 : ℚ) < (s.accumulatedIdleMillis : ℚ) + (s.accumulatedWritingMillis : ℚ) := by
      have : 0 < s.accumulatedIdleMillis + s.accumulatedWritingMillis := by omega
      exact_mod_cast this
    have hval : idleTimePercentage s = some (round ((100 * (s.accumulatedIdleMillis : ℚ))
        / ((s.accumulatedIdleMillis : ℚ) + (s.accumulatedWritingMillis : ℚ)))) := by
      simp [idleTimePercentage, h0, checkedRatio, hden]
    have hx0 : (0 : ℚ) ≤ (100 * (s.accumulatedIdleMillis : ℚ))
        / ((s.accumulatedIdleMillis : ℚ) + (s.accumulatedWritingMillis : ℚ)) := by
      positivity
    have hx100 : (100 * (s.accumulatedIdleMillis : ℚ))
        / ((s.accumulatedIdleMillis : ℚ) + (s.accumulatedWritingMillis : ℚ)) ≤ 100 := by
      rw [div_le_iff₀ hdenq]
      have : (0 : ℚ) ≤ (s.accumulatedWritingMillis : ℚ) := by positivity
      nlinarith
    refine ⟨_, hval, fun _ => rfl, fun h => absurd h h0, ?_, ?_⟩
    · rw [round_eq]
      exact Int.floor_nonneg.mpr (by linarith)
    · rw [round_eq]
      have : ⌊(100 * (s.accumulatedIdleMillis : ℚ))
          / ((s.accumulatedIdleMillis : ℚ) + (s.accumulatedWritingMillis : ℚ)) + 1 / 2⌋
          < 101 := by
        rw [Int.floor_lt]
        push_cast
        linarith
      omega

/-- The function `eventFilter` changes neither the window-state flags, nor the
static of `toggleFullScreen`, nor the time label, nor the settings, nor the record
of window-state calls. -/
theorem eventFilter_frame (w : MainWindow) (e : QEvent) :
    (w.eventFilter e).1.isFullScreen = w.isFullScreen
    ∧ (w.eventFilter e).1.isMaximized = w.isMaximized
    ∧ (w.eventFilter e).1.lastStateWasMaximized = w.lastStateWasMaximized
    ∧ (w.eventFilter e).1.windowCalls = w.windowCalls
    ∧ (w.eventFilter e).1.timeLabelVisible = w.timeLabelVisible
    ∧ (w.eventFilter e).1.displayTimeInFullScreenEnabled = w.displayTimeInFullScreenEnabled := by
  cases e <;> unfold MainWindow.eventFilter <;> simp only <;> split_ifs <;>
    exact ⟨rfl, rfl, rfl, rfl, rfl, rfl⟩

/-- An operation other than `toggleFullScreen` changes neither the window-state
flags, nor the static of `toggleFullScreen`, nor the record of window-state calls. -/
theorem apply_frame (w : MainWindow) (op : WindowOp) (h : op.isToggleFullScreen = false) :
    (w.apply op).isFullScreen = w.isFullScreen
    ∧ (w.apply op).isMaximized = w.isMaximized
    ∧ (w.apply op).lastStateWasMaximized = w.lastStateWasMaximized
    ∧ (w.apply op).windowCalls = w.windowCalls := by
  cases op with
  | toggleFullScreen checked => simp [WindowOp.isToggleFullScreen] at h
  | displayTimeInFullScreenChanged checked =>
    simp only [MainWindow.apply, MainWindow.toggleDisplayTimeInFullScreen]
    split_ifs <;> exact ⟨rfl, rfl, rfl, rfl⟩
  | hideMenuBarInFullScreenChanged checked =>
    simp only [MainWindow.apply, MainWindow.toggleHideMenuBarInFullScreen]
    split_ifs <;> exact ⟨rfl, rfl, rfl, rfl⟩
  | event e =>
    obtain ⟨h1, h2, h3, h4, _, _⟩ := eventFilter_frame w e
    exact ⟨h1, h2, h3, h4⟩

/-- A sequence of operations other than `toggleFullScreen` changes neither the
window-state flags, nor the static, nor the record of window-state calls. -/
theorem applyAll_frame (ops : List WindowOp) :
    ∀ w : MainWindow, (∀ op ∈ ops, op.isToggleFullScreen = false) →
      (w.applyAll ops).isFullScreen = w.isFullScreen
      ∧ (w.applyAll ops).isMaximized = w.isMaximized
      ∧ (w.applyAll ops).lastStateWasMaximized = w.lastStateWasMaximized
      ∧ (w.applyAll ops).windowCalls = w.windowCalls := by
  induction ops with
  | nil => intro w _; exact ⟨rfl, rfl, rfl, rfl⟩
  | cons op ops ih =>
    intro w h
    obtain ⟨a1, a2, a3, a4⟩ := apply_frame w op (h op (List.mem_cons_self _ _))
    obtain ⟨b1, b2, b3, b4⟩ := ih (w.apply op) (fun x hx => h x (List.mem_cons_of_mem _ hx))
    simp only [MainWindow.applyAll]
    exact ⟨b1.trans a1, b2.trans a2, b3.trans a3, b4.trans a4⟩

/-- A call of `toggleFullScreen(true)` on a window that is not full-screen enters
full-screen mode and stores whether the window was maximized. -/
theorem toggleFullScreen_enter (w : MainWindow) (h : w.isFullScreen = false) :
    (w.toggleFullScreen true).isFullScreen = true
    ∧ (w.toggleFullScreen true).lastStateWasMaximized = w.isMaximized
    ∧ (w.toggleFullScreen true).windowCalls = w.windowCalls ++ [.showFullScreen] := by
  obtain ⟨fs, mx, mv, mh, mbh, lp, act, last, ac, bc, tl, dt, hm, calls⟩ := w
  simp only at h
  subst h
  cases mx <;> cases dt <;> cases hm <;> exact ⟨rfl, rfl, rfl⟩

/-- A call of `toggleFullScreen` on a full-screen window leaves full-screen mode,
with `showMaximized` or `showNormal` as the static tells. -/
theorem toggleFullScreen_leave (w : MainWindow) (checked : Bool) (h : w.isFullScreen = true) :
    (w.toggleFullScreen checked).isFullScreen = false
    ∧ (w.toggleFullScreen checked).isMaximized = w.lastStateWasMaximized
    ∧ (w.toggleFullScreen checked).windowCalls
        = w.windowCalls ++ [if w.lastStateWasMaximized then .showMaximized else .showNormal] := by
  obtain ⟨fs, mx, mv, mh, mbh, lp, act, last, ac, bc, tl, dt, hm, calls⟩ := w
  simp only at h
  subst h
  cases last <;> cases dt <;> cases hm <;> cases checked <;> exact ⟨rfl, rfl, rfl⟩

/-- C17: leaving full-screen restores the pre-full-screen window state.  If
`toggleFullScreen(true)` enters full-screen mode from a window that is not
full-screen, then, after any operations other than `toggleFullScreen`, the next call
of `toggleFullScreen` (with either argument) leaves full-screen mode and calls
`showMaximized` if the window was maximized on entry and `showNormal` if it was not. -/
theorem leaving_fullScreen_restores_window_state (w : MainWindow) (between : List WindowOp)
    (checked : Bool) (hw : w.isFullScreen = false)
    (hb : ∀ op ∈ between, op.isToggleFullScreen = false) :
    (w.toggleFullScreen true).isFullScreen = true
    ∧ (((w.toggleFullScreen true).applyAll between).toggleFullScreen checked).isFullScreen = false
    ∧ (((w.toggleFullScreen true).applyAll between).toggleFullScreen checked).isMaximized
        = w.isMaximized
    ∧ (((w.toggleFullScreen true).applyAll between).toggleFullScreen checked).windowCalls
        = w.windowCalls
          ++ [.showFullScreen, if w.isMaximized then .showMaximized else .showNormal] := by
  obtain ⟨e1, e2, e3⟩ := toggleFullScreen_enter w hw
  obtain ⟨f1, _, f3, f4⟩ := applyAll_frame between (w.toggleFullScreen true) hb
  obtain ⟨l1, l2, l3⟩ := toggleFullScreen_leave ((w.toggleFullScreen true).applyAll between)
    checked (f1.trans e1)
  refine ⟨e1, l1, ?_, ?_⟩
  · rw [l2, f3, e2]
  · rw [l3, f4, e3, f3, e2]
    simp

/-- C17, at a maximized window: after entering full-screen mode, a mouse move and a
change of the time setting, `toggleFullScreen(false)` calls `showMaximized`. -/
theorem leaving_fullScreen_restores_window_state_witness :
    maximizedWindow.isFullScreen = false
    ∧ (∀ op ∈ [WindowOp.event (.MouseMove ⟨5, 5⟩), .displayTimeInFullScreenChanged false],
        op.isToggleFullScreen = false)
    ∧ (((maximizedWindow.toggleFullScreen true).applyAll
          [.event (.MouseMove ⟨5, 5⟩), .displayTimeInFullScreenChanged false]).toggleFullScreen
          false).windowCalls = [.showFullScreen, .showMaximized] := by
  have h := leaving_fullScreen_restores_window_state maximizedWindow
    [.event (.MouseMove ⟨5, 5⟩), .displayTimeInFullScreenChanged false] false (by decide)
    (by decide)
  exact ⟨by decide, by decide, h.2.2.2⟩

/-- C18: in full-screen mode with hide-menu-bar-in-full-screen enabled, when a
mouse move has a global `y` below the hot-spot height (20 when the menu bar is
hidden) while the previously recorded `y` was negative or at or above the hot-spot
height, the menu bar is visible after `eventFilter` returns; and after every
mouse-move event, in any state, `lastMousePos` is the event's global position and
`eventFilter` returns `false`. -/
theorem eventFilter_enter_hot_spot (w : MainWindow) (globalPos : QPoint) :
    (w.isFullScreen = true → w.hideMenuBarInFullScreenEnabled = true →
      globalPos.y < w.hotSpotHeight →
      (w.lastMousePos.y < 0 ∨ w.lastMousePos.y ≥ w.hotSpotHeight) →
        (w.eventFilter (.MouseMove globalPos)).1.isMenuBarVisible = true)
    ∧ (w.isMenuBarVisible = false → w.hotSpotHeight = 20)
    ∧ (w.eventFilter (.MouseMove globalPos)).1.lastMousePos = globalPos
    ∧ (w.eventFilter (.MouseMove globalPos)).2 = false := by
  refine ⟨?_, ?_, ?_, ?_⟩
  · intro hfs hhide hy hprev
    have hprev2 : (decide (w.lastMousePos.y < 0) || decide (w.lastMousePos.y ≥ w.hotSpotHeight))
        = true := by
      rcases hprev with h | h <;> simp [h]
    cases hv : w.menuBarVisible <;>
      simp [MainWindow.eventFilter, MainWindow.isMenuBarVisible, MainWindow.showMenuBar,
        hfs, hhide, hy, hprev2, hv]
  · intro hv
    simp [MainWindow.hotSpotHeight, hv]
  · unfold MainWindow.eventFilter
    simp only [reduceCtorEq, decide_False, Bool.or_self, Bool.false_and, Bool.false_eq_true,
      ↓reduceIte]
  · unfold MainWindow.eventFilter
    simp only [reduceCtorEq, decide_False, Bool.or_self, Bool.false_and, Bool.false_eq_true,
      ↓reduceIte]

/-- C18, at a full-screen window with the menu bar hidden and the pointer last seen
at `y = 300`: a move to `y = 5` shows the menu bar and records the position. -/
theorem eventFilter_enter_hot_spot_witness :
    ({ restoredFullScreenWindow with menuBarVisible := false, lastMousePos := ⟨40, 300⟩ }
        : MainWindow).hotSpotHeight = 20
    ∧ (({ restoredFullScreenWindow with menuBarVisible := false, lastMousePos := ⟨40, 300⟩ }
        : MainWindow).eventFilter (.MouseMove ⟨7, 5⟩)).1.isMenuBarVisible = true
    ∧ (({ restoredFullScreenWindow with menuBarVisible := false, lastMousePos := ⟨40, 300⟩ }
        : MainWindow).eventFilter (.MouseMove ⟨7, 5⟩)).1.lastMousePos = ⟨7, 5⟩ := by
  have h := eventFilter_enter_hot_spot
    { restoredFullScreenWindow with menuBarVisible := false, lastMousePos := ⟨40, 300⟩ } ⟨7, 5⟩
  exact ⟨h.2.1 rfl, h.1 rfl rfl (by decide) (Or.inr (by decide)), h.2.2.1⟩

/-- Each operation keeps the time-label invariant. -/
theorem apply_timeLabelInvariant (w : MainWindow) (op : WindowOp)
    (h : w.timeLabelInvariant) : (w.apply op).timeLabelInvariant := by
  unfold MainWindow.timeLabelInvariant at h ⊢
  cases op with
  | toggleFullScreen checked =>
    obtain ⟨fs, mx, mv, mh, mbh, lp, act, last, ac, bc, tl, dt, hm, calls⟩ := w
    simp only at h
    subst h
    cases fs <;> cases checked <;> cases dt <;> cases last <;> cases hm <;> cases mx <;> rfl
  | displayTimeInFullScreenChanged checked =>
    obtain ⟨fs, mx, mv, mh, mbh, lp, act, last, ac, bc, tl, dt, hm, calls⟩ := w
    simp only at h
    subst h
    cases fs <;> cases checked <;> cases dt <;> rfl
  | hideMenuBarInFullScreenChanged checked =>
    obtain ⟨fs, mx, mv, mh, mbh, lp, act, last, ac, bc, tl, dt, hm, calls⟩ := w
    simp only at h
    subst h
    cases fs <;> cases checked <;> cases dt <;> rfl
  | event e =>
    obtain ⟨h1, _, _, _, h5, h6⟩ := eventFilter_frame w e
    simp only [MainWindow.apply]
    rw [h1, h5, h6]
    exact h

/-- Every sequence of operations keeps the time-label invariant. -/
theorem applyAll_timeLabelInvariant (ops : List WindowOp) :
    ∀ w : MainWindow, w.timeLabelInvariant → (w.applyAll ops).timeLabelInvariant := by
  induction ops with
  | nil => intro w h; exact h
  | cons op ops ih => intro w h; exact ih _ (apply_timeLabelInvariant w op h)

/-- C19 (evaluation of the code where the claim fails): `buildStatusBar` hides the
time label when the window is not full-screen or the setting is ENABLED, so for a
window that is full-screen when the status bar is built the label is shown exactly
when the setting is disabled, the opposite of the claim; at `restoredFullScreenWindow`
(full-screen, setting enabled) the label is hidden.  The sibling paths do what the
claim says: `toggleFullScreen` and the two setting changes keep the invariant, so
every state reached from a status bar built on a window that is not full-screen
satisfies it. -/
theorem buildStatusBar_timeLabel_inverted :
    restoredFullScreenWindow.isFullScreen = true
    ∧ restoredFullScreenWindow.displayTimeInFullScreenEnabled = true
    ∧ restoredFullScreenWindow.buildStatusBar.timeLabelVisible = false
    ∧ ¬ restoredFullScreenWindow.buildStatusBar.timeLabelInvariant
    ∧ (∀ w : MainWindow, w.isFullScreen = true →
        w.buildStatusBar.timeLabelVisible = !w.displayTimeInFullScreenEnabled)
    ∧ (∀ w : MainWindow, w.isFullScreen = true → ¬ w.buildStatusBar.timeLabelInvariant)
    ∧ (∀ (w : MainWindow) (op : WindowOp), w.timeLabelInvariant →
        (w.apply op).timeLabelInvariant)
    ∧ (∀ (w : MainWindow) (ops : List WindowOp), w.isFullScreen = false →
        (w.buildStatusBar.applyAll ops).timeLabelInvariant) := by
  refine ⟨rfl, rfl, rfl, by decide, ?_, ?_, apply_timeLabelInvariant, ?_⟩
  · intro w hfs
    cases hd : w.displayTimeInFullScreenEnabled <;> simp [MainWindow.buildStatusBar, hfs, hd]
  · intro w hfs
    cases hd : w.displayTimeInFullScreenEnabled <;>
      simp [MainWindow.timeLabelInvariant, MainWindow.buildStatusBar, hfs, hd]
  · intro w ops hfs
    apply applyAll_timeLabelInvariant
    simp [MainWindow.timeLabelInvariant, MainWindow.buildStatusBar, hfs]

/-- C20 (the claim fails as stated): called with `checked = true` on a window that
is already full-screen, `toggleFullScreen` leaves full-screen mode. -/
theorem toggleFullScreen_true_can_leave_fullScreen :
    restoredFullScreenWindow.isFullScreen = true
    ∧ ¬ ((restoredFullScreenWindow.toggleFullScreen true).isFullScreen = true ↔ true = true) := by
  decide

/-- C20 (amended): for every window state and every boolean `checked`, after
`toggleFullScreen(checked)` returns the window is in full-screen mode if and only if
`checked` is true and the window was not in full-screen mode before the call, and
the Full Screen menu action's checked state equals `checked`. -/
theorem toggleFullScreen_result (w : MainWindow) (checked : Bool) :
    ((w.toggleFullScreen checked).isFullScreen = true
        ↔ (checked = true ∧ w.isFullScreen = false))
    ∧ (w.toggleFullScreen checked).fullScreenMenuActionChecked = checked := by
  obtain ⟨fs, mx, mv, mh, mbh, lp, act, last, ac, bc, tl, dt, hm, calls⟩ := w
  cases fs <;> cases checked <;> cases dt <;> cases last <;> cases hm <;> cases mx <;>
    simp [MainWindow.toggleFullScreen, MainWindow.showMaximized, MainWindow.showNormal,
      MainWindow.showMenuBar, MainWindow.showFullScreen, MainWindow.hideMenuBar]

/-- While a menu is open, `eventFilter` keeps a visible menu bar visible, does not
store a menu bar height, and keeps the menu open. -/
theorem eventFilter_menu_open (w : MainWindow) (e : QEvent)
    (h : w.menuBarMenuActivated = true) :
    (w.isMenuBarVisible = true → (w.eventFilter e).1.isMenuBarVisible = true)
    ∧ (w.eventFilter e).1.menuBarHeight = w.menuBarHeight
    ∧ (w.eventFilter e).1.menuBarMenuActivated = true := by
  obtain ⟨fs, mx, mv, mh, mbh, lp, act, last, ac, bc, tl, dt, hm, calls⟩ := w
  simp only at h
  subst h
  cases e <;> unfold MainWindow.eventFilter <;>
    simp only [MainWindow.isMenuBarVisible, Bool.not_true, Bool.and_false, Bool.false_eq_true,
      ↓reduceIte] <;>
    (try split_ifs) <;> simp_all [MainWindow.showMenuBar]

/-- While a menu is open, no sequence of events makes `eventFilter` hide a visible
menu bar. -/
theorem filterAll_menu_open (es : List QEvent) :
    ∀ w : MainWindow, w.menuBarMenuActivated = true → w.isMenuBarVisible = true →
      (w.filterAll es).isMenuBarVisible = true ∧ (w.filterAll es).menuBarMenuActivated = true := by
  induction es with
  | nil => intro w h hv; exact ⟨hv, h⟩
  | cons e es ih =>
    intro w h hv
    obtain ⟨h1, _, h3⟩ := eventFilter_menu_open w e h
    exact ih _ h3 (h1 hv)

/-- Outside full-screen mode, or with the setting disabled, `eventFilter` leaves the
visibility of the menu bar as it is. -/
theorem eventFilter_no_autohide (w : MainWindow) (e : QEvent)
    (h : w.isFullScreen = false ∨ w.hideMenuBarInFullScreenEnabled = false) :
    (w.eventFilter e).1.isMenuBarVisible = w.isMenuBarVisible := by
  obtain ⟨fs, mx, mv, mh, mbh, lp, act, last, ac, bc, tl, dt, hm, calls⟩ := w
  simp only at h
  rcases h with h | h <;> subst h <;> cases e <;> unfold MainWindow.eventFilter <;>
    simp [MainWindow.isMenuBarVisible]

/-- C21: while a menu-bar menu is open (`menuBarMenuActivated` is true), `eventFilter`
never hides the menu bar, for any event, any pointer position and any setting: a
visible menu bar stays visible, `hideMenuBar` does not run (the stored menu bar
height is untouched) and the flag stays set, so this holds for every sequence of
events that follows `onAboutToShowMenuBarMenu`; and whenever the window is not
full-screen or hide-menu-bar-in-full-screen is disabled, `eventFilter` leaves the menu
bar's visibility unchanged. -/
theorem eventFilter_never_hides_open_menu (w : MainWindow) (e : QEvent) :
    (w.menuBarMenuActivated = true →
      (w.isMenuBarVisible = true → (w.eventFilter e).1.isMenuBarVisible = true)
      ∧ (w.eventFilter e).1.menuBarHeight = w.menuBarHeight
      ∧ (w.eventFilter e).1.menuBarMenuActivated = true)
    ∧ (w.onAboutToShowMenuBarMenu).menuBarMenuActivated = true
    ∧ (∀ es : List QEvent, w.onAboutToShowMenuBarMenu.isMenuBarVisible = true →
        (w.onAboutToShowMenuBarMenu.filterAll es).isMenuBarVisible = true)
    ∧ (∀ underMouse : Bool, (w.onAboutToHideMenuBarMenu underMouse).menuBarMenuActivated = false)
    ∧ (w.isFullScreen = false ∨ w.hideMenuBarInFullScreenEnabled = false →
        (w.eventFilter e).1.isMenuBarVisible = w.isMenuBarVisible) := by
  have hshow : (w.onAboutToShowMenuBarMenu).menuBarMenuActivated = true := by
    unfold MainWindow.onAboutToShowMenuBarMenu
    simp only
    split_ifs <;> rfl
  refine ⟨eventFilter_menu_open w e, hshow, ?_, ?_, eventFilter_no_autohide w e⟩
  · intro es hv
    exact (filterAll_menu_open es _ hshow hv).1
  · intro underMouse
    unfold MainWindow.onAboutToHideMenuBarMenu
    simp only
    split_ifs <;> rfl

/-- C21, at a full-screen window with auto-hide enabled, a menu open and the pointer
last seen inside the menu bar: a mouse move out of the hot spot, a `Leave` and a
`WindowDeactivate` all keep the menu bar visible; without the open menu the same
mouse move hides it. -/
theorem eventFilter_never_hides_open_menu_witness :
    menuOpenWindow.menuBarMenuActivated = true
    ∧ (menuOpenWindow.eventFilter (.MouseMove ⟨40, 200⟩)).1.isMenuBarVisible = true
    ∧ (menuOpenWindow.filterAll
        [.MouseMove ⟨40, 200⟩, .Leave, .WindowDeactivate]).isMenuBarVisible = true
    ∧ (({ menuOpenWindow with menuBarMenuActivated := false } : MainWindow).eventFilter
        (.MouseMove ⟨40, 200⟩)).1.isMenuBarVisible = false := by
  have h := eventFilter_never_hides_open_menu menuOpenWindow (.MouseMove ⟨40, 200⟩)
  exact ⟨rfl, (h.1 rfl).1 rfl, by decide, by decide⟩

/-- An `int` subtraction of two non-negative `int`s does not overflow. -/
theorem toInt32_sub_of_nonneg (a b : Int) (ha : 0 ≤ a ∧ isInt32 a) (hb : 0 ≤ b ∧ isInt32 b) :
    toInt32 (a - b) = a - b := by
  obtain ⟨ha0, _, ha2⟩ := ha
  obtain ⟨hb0, _, hb2⟩ := hb
  unfold toInt32
  omega

/-- C22: for every window width (a non-negative `int`, like the sidebar's width),
the two sizes `adjustEditorWidth` passes to the sidebar splitter sum to that width:
the sidebar gets `0` when the width is below half the primary screen width and its
own width otherwise, and the main pane gets the width minus the sidebar size; the
editor splitter gets one size, the main-pane width, when the HTML preview is hidden,
and two equal sizes of `mainPaneWidth / 2` (truncating division) when it is visible. -/
theorem adjustEditorWidth_sizes (width primaryScreenWidth sidebarWidth : Int)
    (htmlPreviewVisible : Bool) (hw : 0 ≤ width ∧ isInt32 width)
    (hs : 0 ≤ sidebarWidth ∧ isInt32 sidebarWidth) :
    ∃ sidebarSize mainPaneWidth : Int,
      (adjustEditorWidth width primaryScreenWidth sidebarWidth
          htmlPreviewVisible).sidebarSplitterSizes = [sidebarSize, mainPaneWidth]
      ∧ sidebarSize + mainPaneWidth = width
      ∧ ((width : ℚ) < (primaryScreenWidth : ℚ) / 2 → sidebarSize = 0)
      ∧ (¬ (width : ℚ) < (primaryScreenWidth : ℚ) / 2 → sidebarSize = sidebarWidth)
      ∧ mainPaneWidth = width - sidebarSize
      ∧ (htmlPreviewVisible = false →
          (adjustEditorWidth width primaryScreenWidth sidebarWidth
            htmlPreviewVisible).editorSplitterSizes = [mainPaneWidth])
      ∧ (htmlPreviewVisible = true →
          (adjustEditorWidth width primaryScreenWidth sidebarWidth
            htmlPreviewVisible).editorSplitterSizes
            = [mainPaneWidth.tdiv 2, mainPaneWidth.tdiv 2]) := by
  have hsub := toInt32_sub_of_nonneg width sidebarWidth hw hs
  have hhalf : (1 / 2 : ℚ) * (primaryScreenWidth : ℚ) = (primaryScreenWidth : ℚ) / 2 := by ring
  by_cases hn : (width : ℚ) < (primaryScreenWidth : ℚ) / 2
  · have hdec : decide ((width : ℚ) < (1 / 2 : ℚ) * (primaryScreenWidth : ℚ)) = true := by
      rw [hhalf]
      exact decide_eq_true hn
    refine ⟨0, width, ?_, by omega, fun _ => rfl, fun h => absurd hn h, by omega, ?_, ?_⟩
    · cases htmlPreviewVisible <;> simp only [adjustEditorWidth, hdec] <;> rfl
    · intro hv
      subst hv
      simp only [adjustEditorWidth, hdec]
      rfl
    · intro hv
      subst hv
      simp only [adjustEditorWidth, hdec]
      rfl
  · have hdec : decide ((width : ℚ) < (1 / 2 : ℚ) * (primaryScreenWidth : ℚ)) = false := by
      rw [hhalf]
      exact decide_eq_false hn
    refine ⟨sidebarWidth, width - sidebarWidth, ?_, by omega, fun h => absurd h hn,
      fun _ => rfl, rfl, ?_, ?_⟩
    · cases htmlPreviewVisible <;> simp only [adjustEditorWidth, hdec, hsub] <;> rfl
    · intro hv
      subst hv
      simp only [adjustEditorWidth, hdec, hsub]
      rfl
    · intro hv
      subst hv
      simp only [adjustEditorWidth, hdec, hsub]
      rfl

/-- C22, at a 1920-pixel screen and a 288-pixel sidebar: a 1001-pixel window with the
preview visible gives the sidebar 288, the main pane 713 and the editor splitter two
sizes of 356; a 900-pixel window with the preview hidden gives the sidebar 0 and the
editor splitter the single size 900. -/
theorem adjustEditorWidth_sizes_witness :
    (0 ≤ (1001 : Int) ∧ isInt32 1001) ∧ (0 ≤ (288 : Int) ∧ isInt32 288)
    ∧ (adjustEditorWidth 1001 1920 288 true).sidebarSplitterSizes = [288, 713]
    ∧ (adjustEditorWidth 1001 1920 288 true).editorSplitterSizes = [356, 356]
    ∧ (adjustEditorWidth 900 1920 288 false).sidebarSplitterSizes = [0, 900]
    ∧ (adjustEditorWidth 900 1920 288 false).editorSplitterSizes = [900] := by
  have hw : 0 ≤ (1001 : Int) ∧ isInt32 1001 := by decide
  have hw2 : 0 ≤ (900 : Int) ∧ isInt32 900 := by decide
  have hs : 0 ≤ (288 : Int) ∧ isInt32 288 := by decide
  obtain ⟨sb, mp, h1, _, _, h4, h5, _, h7⟩ := adjustEditorWidth_sizes 1001 1920 288 true hw hs
  obtain ⟨sb2, mp2, g1, _, g3, _, g5, g6, _⟩ := adjustEditorWidth_sizes 900 1920 288 false hw2 hs
  have hsb : sb = 288 := h4 (by norm_num)
  have hmp : mp = 713 := by rw [h5, hsb]; rfl
  have hsb2 : sb2 = 0 := g3 (by norm_num)
  have hmp2 : mp2 = 900 := by rw [g5, hsb2]; rfl
  refine ⟨hw, hs, ?_, ?_, ?_, ?_⟩
  · rw [h1, hsb, hmp]
  · rw [h7 rfl, hmp]
    rfl
  · rw [g1, hsb2, hmp2]
  · rw [g6 rfl, hmp2]

/-- C25: `buildSidebar` always selects a tab index inside `[0, sidebar->getCount())`,
where the count is that of the four tabs just added: for every stored
`sidebarCurrentTab` integer, a value that is negative or not below the number of tabs
is replaced by `FirstSidebarTab` (`0`) before `setCurrentTab` is called, and an
in-range value is used unchanged. -/
theorem buildSidebar_tab_index_in_range (tabIndex : Int) :
    (sidebarTabs.length : Int) = 4
    ∧ FirstSidebarTab = 0
    ∧ 0 ≤ buildSidebarTabIndex tabIndex
    ∧ buildSidebarTabIndex tabIndex < (sidebarTabs.length : Int)
    ∧ (tabIndex < 0 ∨ tabIndex ≥ (sidebarTabs.length : Int) →
        buildSidebarTabIndex tabIndex = FirstSidebarTab)
    ∧ (0 ≤ tabIndex ∧ tabIndex < (sidebarTabs.length : Int) →
        buildSidebarTabIndex tabIndex = tabIndex)
    ∧ (∀ count : Int, 0 < count →
        0 ≤ selectedSidebarTab tabIndex count ∧ selectedSidebarTab tabIndex count < count) := by
  have hlen : (sidebarTabs.length : Int) = 4 := rfl
  refine ⟨hlen, rfl, ?_, ?_, ?_, ?_, ?_⟩
  · unfold buildSidebarTabIndex selectedSidebarTab FirstSidebarTab
    rw [hlen]
    split_ifs with h <;> simp at h <;> omega
  · unfold buildSidebarTabIndex selectedSidebarTab FirstSidebarTab
    rw [hlen]
    split_ifs with h <;> simp at h <;> omega
  · intro h
    unfold buildSidebarTabIndex selectedSidebarTab
    rw [hlen] at h ⊢
    rw [if_pos (by simpa using h)]
  · intro h
    unfold buildSidebarTabIndex selectedSidebarTab
    rw [hlen] at h ⊢
    rw [if_neg (by simp; omega)]
  · intro count hc
    unfold selectedSidebarTab FirstSidebarTab
    split_ifs with h <;> simp at h <;> omega

/-- C25, at stored values below, inside and above the range. -/
theorem buildSidebar_tab_index_in_range_witness :
    [-1, 0, 3, 4, 7].map buildSidebarTabIndex = [0, 0, 3, 0, 0]
    ∧ buildSidebarTabIndex 7 = FirstSidebarTab
    ∧ buildSidebarTabIndex 3 = 3 := by
  have h7 := (buildSidebar_tab_index_in_range 7).2.2.2.2.1 (Or.inr (by decide))
  have h3 := (buildSidebar_tab_index_in_range 3).2.2.2.2.2.1 ⟨by decide, by decide⟩
  exact ⟨by decide, h7, h3⟩

/-- Entry `j` after the first loop of `refreshRecentFiles`. -/
theorem showRecentFiles_getElem? (maxRecentFiles : Nat) (recentFiles : List String)
    (actions : List RecentFileAction) (j : Nat) :
    (showRecentFiles maxRecentFiles recentFiles actions)[j]?
      = if j < min maxRecentFiles recentFiles.length then
          actions[j]?.map (fun _ =>
            { text := recentFiles.getD j "", data := recentFiles.getD j "", visible := true })
        else actions[j]? := by
  unfold showRecentFiles
  generalize min maxRecentFiles recentFiles.length = n
  induction n with
  | zero => simp
  | succ n ih =>
    rw [List.range_succ, List.foldl_append, List.foldl_cons, List.foldl_nil, List.getElem?_set', ih]
    by_cases hnj : n = j
    · subst hnj
      rw [if_pos rfl, if_neg (Nat.lt_irrefl _), if_pos (Nat.lt_succ_self _)]
      rfl
    · rw [if_neg hnj]
      by_cases hjn : j < n
      · rw [if_pos hjn, if_pos (by omega)]
      · rw [if_neg hjn, if_neg (by omega)]

/-- One step of the second loop of `refreshRecentFiles`. -/
theorem hideStep_getElem? (acts : List RecentFileAction) (i j : Nat) :
    (match acts[i]? with
      | some a => acts.set i { a with visible := false }
      | none => acts)[j]?
      = if i = j then acts[j]?.map (fun a => { a with visible := false }) else acts[j]? := by
  cases hi : acts[i]? with
  | none =>
    by_cases hij : i = j
    · subst hij
      simp [hi]
    · simp [hij]
  | some a =>
    by_cases hij : i = j
    · subst hij
      simp [List.getElem?_set', hi]
    · simp [hij]

/-- Entry `j` after the second loop of `refreshRecentFiles`. -/
theorem hideUnusedRecentFiles_getElem? (maxRecentFiles : Nat) (recentFiles : List String)
    (actions : List RecentFileAction) (j : Nat) :
    (hideUnusedRecentFiles maxRecentFiles recentFiles actions)[j]?
      = if recentFiles.length ≤ j ∧ j < maxRecentFiles then
          actions[j]?.map (fun a => { a with visible := false })
        else actions[j]? := by
  unfold hideUnusedRecentFiles
  have key : ∀ k : Nat,
      ((List.range' recentFiles.length k).foldl
        (fun acts i =>
          match acts[i]? with
          | some a => acts.set i { a with visible := false }
          | none => acts) actions)[j]?
      = if recentFiles.length ≤ j ∧ j < recentFiles.length + k then
          actions[j]?.map (fun a => { a with visible := false })
        else actions[j]? := by
    intro k
    induction k with
    | zero =>
      have : ¬ (recentFiles.length ≤ j ∧ j < recentFiles.length + 0) := by omega
      rw [if_neg this]
      rfl
    | succ k ih =>
      rw [List.range'_concat, List.foldl_append, List.foldl_cons, List.foldl_nil,
        hideStep_getElem?, ih, Nat.one_mul]
      by_cases hkj : recentFiles.length + k = j
      · have h1 : ¬ (recentFiles.length ≤ j ∧ j < recentFiles.length + k) := by omega
        have h2 : recentFiles.length ≤ j ∧ j < recentFiles.length + (k + 1) := by omega
        rw [if_pos hkj, if_neg h1, if_pos h2]
      · rw [if_neg hkj]
        by_cases h3 : recentFiles.length ≤ j ∧ j < recentFiles.length + k
        · rw [if_pos h3, if_pos (by omega)]
        · rw [if_neg h3, if_neg (by omega)]
  rw [key]
  by_cases h4 : recentFiles.length ≤ j ∧ j < maxRecentFiles
  · rw [if_pos h4, if_pos (by omega)]
  · rw [if_neg h4, if_neg (by omega)]

/-- Entry `i` of `recentFilesActions` after `refreshRecentFiles` with file history
enabled: below the number of remaining entries it is the visible action of the
`i`-th remaining entry, from there up to `MAX_RECENT_FILES` it is the old action made
invisible. -/
theorem refreshRecentFiles_getElem? (maxRecentFiles : Nat) (recentFiles : List String)
    (documentIsNew : Bool) (sanitizedPath : String) (actions : List RecentFileAction)
    (i : Nat) (hi : i < maxRecentFiles) :
    (refreshRecentFiles maxRecentFiles true recentFiles documentIsNew sanitizedPath actions)[i]?
      = if i < (remainingRecentFiles recentFiles documentIsNew sanitizedPath).length then
          actions[i]?.map (fun _ =>
            { text := (remainingRecentFiles recentFiles documentIsNew sanitizedPath).getD i ""
              data := (remainingRecentFiles recentFiles documentIsNew sanitizedPath).getD i ""
              visible := true })
        else actions[i]?.map (fun a => { a with visible := false }) := by
  simp only [refreshRecentFiles, ↓reduceIte]
  rw [hideUnusedRecentFiles_getElem?, showRecentFiles_getElem?]
  by_cases hlt : i < (remainingRecentFiles recentFiles documentIsNew sanitizedPath).length
  · have h1 : ¬ ((remainingRecentFiles recentFiles documentIsNew sanitizedPath).length ≤ i
        ∧ i < maxRecentFiles) := by omega
    have h2 : i < min maxRecentFiles
        (remainingRecentFiles recentFiles documentIsNew sanitizedPath).length := by omega
    rw [if_neg h1, if_pos h2, if_pos hlt]
  · have h1 : (remainingRecentFiles recentFiles documentIsNew sanitizedPath).length ≤ i
        ∧ i < maxRecentFiles := by omega
    have h2 : ¬ i < min maxRecentFiles
        (remainingRecentFiles recentFiles documentIsNew sanitizedPath).length := by omega
    rw [if_pos h1, if_neg h2, if_neg hlt]

/-- No remaining entry is the path of a document that is not new. -/
theorem remainingRecentFiles_ne (recentFiles : List String) (sanitizedPath : String)
    (f : String) (hf : f ∈ remainingRecentFiles recentFiles false sanitizedPath) :
    f ≠ sanitizedPath := by
  simp only [remainingRecentFiles, Bool.not_false, ↓reduceIte, List.mem_filter,
    decide_eq_true_eq] at hf
  exact hf.2

/-- C23: after `refreshRecentFiles` with file history enabled, recent-file action
`i` (`0 ≤ i < MAX_RECENT_FILES`) is visible if and only if `i` is less than the number
of history entries that remain once the current document's absolute path has been
removed (for a new document nothing is removed, which is the same count whenever
its path is not in the history); visible action `i` carries the
`i`-th remaining entry, in history order, as both its text and its data; and the path
of a current document that is not new is never the text or data of a visible
action. -/
theorem refreshRecentFiles_visible_actions (maxRecentFiles : Nat) (recentFiles : List String)
    (documentIsNew : Bool) (sanitizedPath : String) (actions : List RecentFileAction)
    (hlen : actions.length = maxRecentFiles) (i : Nat) (hi : i < maxRecentFiles) :
    ∃ a, (refreshRecentFiles maxRecentFiles true recentFiles documentIsNew sanitizedPath
            actions)[i]? = some a
      ∧ (a.visible = true
          ↔ i < (remainingRecentFiles recentFiles documentIsNew sanitizedPath).length)
      ∧ (a.visible = true →
          (remainingRecentFiles recentFiles documentIsNew sanitizedPath)[i]? = some a.text
          ∧ a.data = a.text)
      ∧ (documentIsNew = false →
          remainingRecentFiles recentFiles documentIsNew sanitizedPath
              = recentFiles.filter (fun f => decide (f ≠ sanitizedPath))
          ∧ (a.visible = true → a.text ≠ sanitizedPath ∧ a.data ≠ sanitizedPath))
      ∧ (documentIsNew = true →
          remainingRecentFiles recentFiles documentIsNew sanitizedPath = recentFiles
          ∧ (sanitizedPath ∉ recentFiles →
              remainingRecentFiles recentFiles documentIsNew sanitizedPath
                = recentFiles.filter (fun f => decide (f ≠ sanitizedPath)))) := by
  have hget := refreshRecentFiles_getElem? maxRecentFiles recentFiles documentIsNew
    sanitizedPath actions i hi
  have hold : ∃ old, actions[i]? = some old := by
    have : i < actions.length := by omega
    exact ⟨actions[i], List.getElem?_eq_getElem this⟩
  obtain ⟨old, hold⟩ := hold
  have hnew : documentIsNew = true →
      remainingRecentFiles recentFiles documentIsNew sanitizedPath = recentFiles
      ∧ (sanitizedPath ∉ recentFiles →
          remainingRecentFiles recentFiles documentIsNew sanitizedPath
            = recentFiles.filter (fun f => decide (f ≠ sanitizedPath))) := by
    intro h
    have hall : remainingRecentFiles recentFiles documentIsNew sanitizedPath = recentFiles := by
      simp [remainingRecentFiles, h]
    refine ⟨hall, fun hnot => ?_⟩
    rw [hall]
    symm
    rw [List.filter_eq_self]
    intro f hf
    have : f ≠ sanitizedPath := fun heq => hnot (heq ▸ hf)
    simpa using this
  by_cases hlt : i < (remainingRecentFiles recentFiles documentIsNew sanitizedPath).length
  · rw [if_pos hlt, hold] at hget
    have hentry : (remainingRecentFiles recentFiles documentIsNew sanitizedPath)[i]?
        = some ((remainingRecentFiles recentFiles documentIsNew sanitizedPath).getD i "") := by
      rw [List.getD_eq_getElem?_getD, List.getElem?_eq_getElem hlt]
      rfl
    refine ⟨_, hget, ⟨fun _ => hlt, fun _ => rfl⟩, fun _ => ⟨hentry, rfl⟩, ?_, hnew⟩
    intro hn
    subst hn
    refine ⟨by simp [remainingRecentFiles], fun _ => ?_⟩
    have hmem := List.getElem?_mem hentry
    exact ⟨remainingRecentFiles_ne _ _ _ hmem, remainingRecentFiles_ne _ _ _ hmem⟩
  · rw [if_neg hlt, hold] at hget
    refine ⟨_, hget, ⟨fun h => ?_, fun h => absurd h hlt⟩, fun h => ?_, ?_, hnew⟩
    · simp at h
    · simp at h
    · intro hn
      subst hn
      refine ⟨by simp [remainingRecentFiles], fun h => ?_⟩
      simp at h

/-- C23, at three actions and the history `a, b, c, d` with `b` the current document:
the actions show `a, c, d`; with the history `a, b` the first action shows `a` and
the other two are invisible. -/
theorem refreshRecentFiles_visible_actions_witness :
    ([⟨"x", "x", true⟩, ⟨"y", "y", true⟩, ⟨"z", "z", true⟩] : List RecentFileAction).length = 3
    ∧ (1 : Nat) < 3
    ∧ (∃ a, (refreshRecentFiles 3 true ["a", "b", "c", "d"] false "b"
          [⟨"x", "x", true⟩, ⟨"y", "y", true⟩, ⟨"z", "z", true⟩])[1]? = some a
        ∧ a.visible = true ∧ a.text = "c" ∧ a.data = "c")
    ∧ refreshRecentFiles 3 true ["a", "b"] false "b"
        [⟨"x", "x", true⟩, ⟨"y", "y", true⟩, ⟨"z", "z", true⟩]
      = [⟨"a", "a", true⟩, ⟨"y", "y", false⟩, ⟨"z", "z", false⟩] := by
  obtain ⟨a, ha, hv, ht, _, _⟩ := refreshRecentFiles_visible_actions 3 ["a", "b", "c", "d"]
    false "b" [⟨"x", "x", true⟩, ⟨"y", "y", true⟩, ⟨"z", "z", true⟩] rfl 1 (by decide)
  have hvis : a.visible = true := hv.mpr (by decide)
  have htext : a.text = "c" := by
    have h1 := (ht hvis).1
    have h2 : (remainingRecentFiles ["a", "b", "c", "d"] false "b")[1]? = some "c" := by decide
    rw [h2] at h1
    exact (Option.some.inj h1).symm
  exact ⟨rfl, by decide, ⟨a, ha, hvis, htext, ((ht hvis).2).trans htext⟩, by decide⟩

end Ghostwriter
